import Mathlib

/-!
# Verification of the 3PL Stock Ledger + Billing/Settlement/Invoice Engine

Shallow embedding of the billing engine (`src/routes/billingEngine.js`), the
outbound billing service (`apps/api/src/services/billing.js`) and the
settlement-batch workflow, together with proofs of the specification claims.

JavaScript numbers are modelled as rationals (`ℚ`); all monetary code in the
repository works on decimal amounts for which this is the intended semantics.
SQL `DATE` values are modelled as their `YYYY-MM-DD` strings, which compare
lexicographically exactly as dates; soft-deletion (`deleted_at`) is modelled as
a boolean tombstone flag.
-/

deriving instance DecidableEq for Except

namespace ThreePL

/-- `trunc100` from billingEngine.js:
`Math.floor(value / 100) * 100` — truncation toward negative infinity in units
of 100 (KRW minor units). -/
def trunc100 (value : ℚ) : ℤ := ⌊value / 100⌋ * 100

/-- A billing-event row as read by the invoice-generation SELECT
(billingEngine.js lines 778-789): the columns used by the aggregation loop. -/
structure BillingEvent where
  id : Nat
  clientId : Nat
  serviceCode : String
  referenceType : String := ""
  referenceId : Option String := none
  eventDate : String
  qty : ℚ
  pricingPolicy : String
  unitPriceThb : Option ℚ := none
  amountThb : Option ℚ := none
  unitPriceKrw : Option ℚ := none
  amountKrw : Option ℚ := none
  fxRateThbkrw : Option ℚ := none
  invoiceId : Option Nat := none
  status : String
  deleted : Bool := false
  deriving Repr, DecidableEq

/-- Normalisation of one event to KRW (billingEngine.js lines 830-843):
THB-based events convert `amount_thb` (falling back to
`unit_price_thb * qty`) at the fx rate and truncate to 100; KRW-fixed events
truncate `amount_krw` (falling back to `unit_price_krw * qty`) directly. -/
def normalizedAmount (fx : ℚ) (e : BillingEvent) : ℤ :=
  if e.pricingPolicy = "THB_BASED" then
    let amountThb :=
      match e.amountThb with
      | some a => a
      | none => (e.unitPriceThb.getD 0) * e.qty
    trunc100 (amountThb * fx)
  else
    let amountKrw :=
      match e.amountKrw with
      | some a => a
      | none => (e.unitPriceKrw.getD 0) * e.qty
    trunc100 amountKrw

/-- One per-service-code aggregation bucket: accumulated qty and accumulated
normalised KRW amount (the `grouped` Map of billingEngine.js lines 852-858). -/
structure Group where
  serviceCode : String
  qty : ℚ
  amountKrw : ℤ
  deriving Repr, DecidableEq

/-- Add one event's qty/normalised amount to its service-code bucket,
creating the bucket at the end on first use (JS `Map` insertion order). -/
def addToGroups (groups : List Group) (code : String) (qty : ℚ) (amt : ℤ) :
    List Group :=
  match groups with
  | [] => [⟨code, qty, amt⟩]
  | g :: rest =>
    if g.serviceCode = code then
      { g with qty := g.qty + qty, amountKrw := g.amountKrw + amt } :: rest
    else
      g :: addToGroups rest code qty amt

/-- The per-service-code aggregation of the event loop
(billingEngine.js lines 829-858). -/
def eventGroups (fx : ℚ) (events : List BillingEvent) : List Group :=
  events.foldl
    (fun gs e => addToGroups gs e.serviceCode e.qty (normalizedAmount fx e)) []

/-- Line amount of one invoice item: `trunc100(agg.amount_krw)`
(billingEngine.js line 863). -/
def lineAmount (g : Group) : ℤ := trunc100 ((g.amountKrw : ℤ) : ℚ)

/-- Display unit price of one invoice item
(`qty > 0 ? trunc100(lineAmount / qty) : lineAmount`, line 866). -/
def lineUnitDisplay (g : Group) : ℤ :=
  if 0 < g.qty then trunc100 ((lineAmount g : ℚ) / g.qty) else lineAmount g

/-- Invoice subtotal: `trunc100(Σ line amounts)` (billingEngine.js line 875). -/
def invoiceSubtotal (fx : ℚ) (events : List BillingEvent) : ℤ :=
  trunc100 ((((eventGroups fx events).map lineAmount).sum : ℤ) : ℚ)

/-- Invoice VAT: `trunc100(subtotal * 0.07)` (billingEngine.js line 876). -/
def invoiceVat (fx : ℚ) (events : List BillingEvent) : ℤ :=
  trunc100 ((invoiceSubtotal fx events : ℚ) * (7 / 100))

/-- Invoice total: `trunc100(subtotal + vat)` (billingEngine.js line 877). -/
def invoiceTotal (fx : ℚ) (events : List BillingEvent) : ℤ :=
  trunc100 (((invoiceSubtotal fx events + invoiceVat fx events : ℤ)) : ℚ)

/-! ### String helpers mirroring the JavaScript string operations

All helpers work on `String.data` (the underlying character list) so that every
definition reduces inside the kernel. -/

/-- JS `s.split("-")` (the separator is a single character here). -/
def jsSplitDash (s : String) : List String :=
  (s.data.splitOn '-').map List.asString

/-- JS `Number(s)` on the all-digit strings produced by the
`^\d{4}-\d{2}$`-validated month input. -/
def jsNumberNat (s : String) : Nat :=
  s.data.foldl (fun n c => n * 10 + (c.toNat - '0'.toNat)) 0

/-- JS `s.padStart(len, c)` for a one-character pad. -/
def jsPadStart (len : Nat) (c : Char) (s : String) : String :=
  (List.replicate (len - s.data.length) c ++ s.data).asString

/-- JS `s.replace("-", "")`: removes the first occurrence only. -/
def jsRemoveFirstDash (s : String) : String :=
  (removeFirstAux s.data).asString
where
  removeFirstAux : List Char → List Char
    | [] => []
    | c :: cs => if c = '-' then cs else c :: removeFirstAux cs

/-- JS `s.toLowerCase()` (ASCII, which is all the code compares). -/
def jsToLower (s : String) : String :=
  (s.data.map Char.toLower).asString

/-- SQL `DATE`/string `<` on `YYYY-MM-DD` strings (lexicographic order on the
characters coincides with chronological order for zero-padded dates). -/
def dateLt (a b : String) : Bool := decide (a.data < b.data)

/-- SQL `DATE`/string `<=`. -/
def dateLe (a b : String) : Bool := a = b || dateLt a b

/-! ### `monthRange` (billingEngine.js lines 17-22 and 1171-1176)

Both route files define the same helper: `from` is `invoiceMonth + "-01"` and
`to` is the first day of the following month, rolling December over to January
of the next year. -/

/-- `monthRange` from billingEngine.js lines 17-22. -/
def monthRange (invoiceMonth : String) : String × String :=
  let parts := (jsSplitDash invoiceMonth).map jsNumberNat
  let year := parts.getD 0 0
  let month := parts.getD 1 0
  let lo := invoiceMonth ++ "-01"
  let hi :=
    if month = 12 then toString (year + 1) ++ "-01-01"
    else toString year ++ "-" ++ jsPadStart 2 '0' (toString (month + 1)) ++ "-01"
  (lo, hi)

/-- The row filter of the PENDING-event SELECT in invoice generation
(billingEngine.js lines 778-789): `event_date >= from AND event_date < to`
with `(from, to) = monthRange invoice_month` — a half-open window. -/
def inGenerateWindow (invoiceMonth : String) (eventDate : String) : Bool :=
  dateLe (monthRange invoiceMonth).1 eventDate &&
    dateLt eventDate (monthRange invoiceMonth).2

/-! ### Data model

Rows of the tables touched by the billing engine. `deleted` models the
`deleted_at IS NULL` tombstone; `now` in `Db` models `NOW()` for the columns
that store it. Lists hold rows in insertion (= primary-key) order, so a plain
`filter` realises `ORDER BY id ASC`. -/

structure ExchangeRate where
  id : Nat
  rateDate : String
  baseCurrency : String := "THB"
  quoteCurrency : String := "KRW"
  rate : ℚ
  source : String := "manual"
  locked : Nat := 0
  status : String := "active"
  enteredBy : Nat := 1
  deleted : Bool := false
  deriving Repr, DecidableEq

structure Invoice where
  id : Nat
  settlementBatchId : Option Nat := none
  clientId : Nat
  invoiceMonth : Option String := none
  invoiceNo : String
  status : String
  issueDate : Option String := none
  invoiceDate : Option String := none
  dueDate : Option String := none
  recipientEmail : Option String := none
  currency : String := "KRW"
  fxRateThbkrw : Option ℚ := none
  subtotalKrw : ℚ := 0
  vatKrw : ℚ := 0
  totalKrw : ℚ := 0
  totalAmount : ℚ := 0
  createdBy : Nat := 1
  deleted : Bool := false
  deriving Repr, DecidableEq

structure InvoiceItem where
  id : Nat
  invoiceId : Nat
  serviceCode : String
  description : String
  qty : ℚ
  unitPriceKrw : ℚ
  amountKrw : ℚ
  deleted : Bool := false
  deriving Repr, DecidableEq

structure InvoiceSequence where
  id : Nat
  clientId : Nat
  yyyymm : String
  lastSeq : Nat
  deleted : Bool := false
  deriving Repr, DecidableEq

structure ServiceCatalogRow where
  id : Nat
  serviceCode : String
  serviceName : String
  deleted : Bool := false
  deriving Repr, DecidableEq

structure SettlementBatch where
  id : Nat
  clientId : Nat
  billingMonth : String
  exchangeRateId : Option Nat := none
  status : String
  isProvisional : Nat := 1
  krwSubtotal : ℚ := 0
  thbSubtotal : ℚ := 0
  totalKrw : ℚ := 0
  closedAt : Option Nat := none
  closedBy : Option Nat := none
  createdBy : Nat := 1
  deleted : Bool := false
  deriving Repr, DecidableEq

structure SettlementLine where
  id : Nat
  settlementBatchId : Nat
  serviceId : Option Nat := none
  lineType : String := "service"
  description : String := ""
  basis : Option String := none
  qty : ℚ := 0
  unitPrice : ℚ := 0
  currency : String := "KRW"
  amount : ℚ := 0
  extraAmount : ℚ := 0
  totalAmount : ℚ := 0
  sourceServiceEventId : Option Nat := none
  deleted : Bool := false
  deriving Repr, DecidableEq

structure InvoiceLine where
  id : Nat
  invoiceId : Nat
  settlementLineId : Nat
  serviceId : Option Nat := none
  lineType : String := "service"
  description : String := ""
  qty : ℚ := 0
  unit : Option String := none
  currency : String := "KRW"
  unitPrice : ℚ := 0
  amount : ℚ := 0
  extraAmount : ℚ := 0
  totalAmount : ℚ := 0
  deleted : Bool := false
  deriving Repr, DecidableEq

structure ReopenRequest where
  id : Nat
  settlementBatchId : Nat
  requestedBy : Nat
  reason : String := ""
  status : String
  approvedBy : Option Nat := none
  approvedAt : Option Nat := none
  deleted : Bool := false
  deriving Repr, DecidableEq

structure ReopenLog where
  id : Nat
  settlementBatchId : Nat
  requestId : Option Nat := none
  actorId : Nat
  action : String
  reason : Option String := none
  actedAt : Nat := 0
  deleted : Bool := false
  deriving Repr, DecidableEq

/-- The transactional store shared by all billing-engine routes. -/
structure Db where
  invoices : List Invoice := []
  invoiceItems : List InvoiceItem := []
  invoiceLines : List InvoiceLine := []
  billingEvents : List BillingEvent := []
  exchangeRates : List ExchangeRate := []
  invoiceSequences : List InvoiceSequence := []
  serviceCatalog : List ServiceCatalogRow := []
  settlementBatches : List SettlementBatch := []
  settlementLines : List SettlementLine := []
  reopenRequests : List ReopenRequest := []
  reopenLogs : List ReopenLog := []
  nextInvoiceId : Nat := 1
  nextInvoiceItemId : Nat := 1
  nextInvoiceLineId : Nat := 1
  nextSequenceRowId : Nat := 1
  nextReopenRequestId : Nat := 1
  nextReopenLogId : Nat := 1
  now : Nat := 0
  deriving Repr, DecidableEq

/-- Modelled from the spec: `withTransaction` (services/stock.js — required by
billingEngine.js but not among the provided sources). Spec §5: "Every
multi-step workflow … runs inside one all-or-nothing transaction; a failure at
any step must roll back all prior writes in that transaction." A body that
ends in a failure leaves the database exactly as it was at transaction start;
a body that ends successfully commits its final state. -/
def withTransaction {α : Type} (st : Db) (body : Db → Except String (α × Db)) :
    Except String α × Db :=
  match body st with
  | .ok (a, st') => (.ok a, st')
  | .error e => (.error e, st)

/-! ### Invoice generation (`POST /billing/invoices/generate`,
billingEngine.js lines 706-917) -/

/-- Payload of the generate route after zod validation and `parseCreator`. -/
structure GenPayload where
  clientId : Nat
  invoiceMonth : String
  invoiceDate : String
  regenerateDraft : Nat := 0
  createdBy : Nat := 1
  deriving Repr, DecidableEq

/-- Result payloads of the generate route. -/
inductive GenOk where
  | reused (invoiceId : Nat)
  | created (invoice : Invoice) (eventsCount : Nat) (fxRateId : Nat)
  deriving Repr, DecidableEq

/-- `SELECT … FROM invoices WHERE client_id = ? AND invoice_month = ? AND
deleted_at IS NULL ORDER BY id DESC LIMIT 1` (lines 713-723): the matching row
with the greatest id. -/
def latestInvoiceFor (st : Db) (clientId : Nat) (month : String) : Option Invoice :=
  (st.invoices.filter fun i =>
      i.clientId = clientId && i.invoiceMonth = some month && !i.deleted).foldl
    (fun acc i =>
      match acc with
      | none => some i
      | some b => if b.id < i.id then some i else some b) none

/-- Release a regenerated draft's events back to PENDING
(lines 742-747). -/
def releaseEventsOf (st : Db) (invoiceId : Nat) : Db :=
  { st with
    billingEvents := st.billingEvents.map fun e =>
      if e.invoiceId = some invoiceId && !e.deleted then
        { e with status := "PENDING", invoiceId := none, fxRateThbkrw := none }
      else e }

/-- Tombstone a regenerated draft's invoice items (line 748). -/
def tombstoneItemsOf (st : Db) (invoiceId : Nat) : Db :=
  { st with
    invoiceItems := st.invoiceItems.map fun it =>
      if it.invoiceId = invoiceId && !it.deleted then { it with deleted := true }
      else it }

/-- Tombstone the regenerated draft invoice itself (line 749). -/
def tombstoneInvoice (st : Db) (invoiceId : Nat) : Db :=
  { st with
    invoices := st.invoices.map fun i =>
      if i.id = invoiceId then { i with deleted := true } else i }

/-- `SELECT … FROM exchange_rates WHERE base='THB' AND quote='KRW' AND
deleted_at IS NULL AND status='active' AND rate_date <= ? ORDER BY rate_date
DESC, id DESC LIMIT 1` (lines 752-764). -/
def fxLookup (st : Db) (invoiceDate : String) : Option ExchangeRate :=
  (st.exchangeRates.filter fun r =>
      r.baseCurrency = "THB" && r.quoteCurrency = "KRW" && !r.deleted &&
        r.status = "active" && dateLe r.rateDate invoiceDate).foldl
    (fun acc r =>
      match acc with
      | none => some r
      | some b =>
        if dateLt b.rateDate r.rateDate || (b.rateDate = r.rateDate && b.id < r.id)
        then some r else some b) none

/-- `UPDATE exchange_rates SET locked = 1 WHERE id = ?` (line 776). -/
def lockRate (st : Db) (rateId : Nat) : Db :=
  { st with
    exchangeRates := st.exchangeRates.map fun r =>
      if r.id = rateId then { r with locked := 1 } else r }

/-- The PENDING-event SELECT of lines 778-789 (rows are stored in id order, so
`filter` also realises `ORDER BY id ASC`). -/
def pendingEventsFor (st : Db) (clientId : Nat) (month : String) : List BillingEvent :=
  st.billingEvents.filter fun e =>
    e.clientId = clientId && e.status = "PENDING" && !e.deleted &&
      inGenerateWindow month e.eventDate

/-- `SELECT … FROM invoice_sequences WHERE client_id = ? AND yyyymm = ? AND
deleted_at IS NULL LIMIT 1 FOR UPDATE` (lines 63-70). -/
def findSequenceRow (st : Db) (clientId : Nat) (yyyymm : String) :
    Option InvoiceSequence :=
  st.invoiceSequences.find? fun r =>
    r.clientId = clientId && r.yyyymm = yyyymm && !r.deleted

/-- `resolveInvoiceSequence` (billingEngine.js lines 62-84): insert the counter
row with `last_seq = 1` on first use, otherwise increment and return it. -/
def resolveInvoiceSequence (st : Db) (clientId : Nat) (yyyymm : String) :
    Nat × Db :=
  match findSequenceRow st clientId yyyymm with
  | none =>
    (1,
      { st with
        invoiceSequences :=
          st.invoiceSequences ++ [⟨st.nextSequenceRowId, clientId, yyyymm, 1, false⟩],
        nextSequenceRowId := st.nextSequenceRowId + 1 })
  | some row =>
    (row.lastSeq + 1,
      { st with
        invoiceSequences := st.invoiceSequences.map fun q =>
          if q.id = row.id then { q with lastSeq := row.lastSeq + 1 } else q })

/-- Invoice-number rendering:
`` `KRW-${clientId}-${yyyymm}-${String(seq).padStart(4, "0")}` `` (line 801)
and `` `INV-…` `` (line 1415). -/
def mkInvoiceNo (pre : String) (clientId : Nat) (yyyymm : String) (seq : Nat) :
    String :=
  pre ++ "-" ++ toString clientId ++ "-" ++ yyyymm ++ "-" ++
    jsPadStart 4 '0' (toString seq)

/-- The service-name Map of lines 821-826 (`COALESCE(service_name,
service_name_kr)` is the single `serviceName` field here); falls back to the
service code itself (line 871). -/
def serviceNameIn (cat : List ServiceCatalogRow) (code : String) : String :=
  match cat.find? fun s => !s.deleted && s.serviceCode = code with
  | some s => s.serviceName
  | none => code

/-- The freshly inserted draft invoice row (lines 803-819). -/
def draftInvoiceRow (p : GenPayload) (invoiceId : Nat) (invoiceNo : String)
    (fx : ℚ) : Invoice :=
  { id := invoiceId, settlementBatchId := none, clientId := p.clientId,
    invoiceMonth := some p.invoiceMonth, invoiceNo := invoiceNo,
    status := "draft", issueDate := some p.invoiceDate,
    invoiceDate := some p.invoiceDate, dueDate := some p.invoiceDate,
    recipientEmail := none, currency := "KRW", fxRateThbkrw := some fx,
    subtotalKrw := 0, vatKrw := 0, totalKrw := 0, totalAmount := 0,
    createdBy := p.createdBy, deleted := false }

/-- The per-event UPDATE of lines 845-850: store the normalised amount and fx
rate and mark the event INVOICED. -/
def markEventInvoiced (fx : ℚ) (invoiceId : Nat) (st : Db) (e : BillingEvent) :
    Db :=
  { st with
    billingEvents := st.billingEvents.map fun x =>
      if x.id = e.id then
        { x with amountKrw := some ((normalizedAmount fx e : ℤ) : ℚ),
                 fxRateThbkrw := some fx, status := "INVOICED",
                 invoiceId := some invoiceId }
      else x }

/-- The invoice-item rows inserted by the per-group loop of lines 861-873,
with sequential ids starting at `startId`. -/
def groupItems (cat : List ServiceCatalogRow) (startId invoiceId : Nat) :
    List Group → List InvoiceItem
  | [] => []
  | g :: rest =>
    { id := startId, invoiceId := invoiceId, serviceCode := g.serviceCode,
      description := serviceNameIn cat g.serviceCode,
      qty := g.qty, unitPriceKrw := ((lineUnitDisplay g : ℤ) : ℚ),
      amountKrw := ((lineAmount g : ℤ) : ℚ), deleted := false } ::
      groupItems cat (startId + 1) invoiceId rest

/-- The per-group item INSERT loop (lines 861-873). -/
def insertGroupItems (st : Db) (invoiceId : Nat) (groups : List Group) : Db :=
  { st with
    invoiceItems :=
      st.invoiceItems ++ groupItems st.serviceCatalog st.nextInvoiceItemId invoiceId groups,
    nextInvoiceItemId := st.nextInvoiceItemId + groups.length }

/-- The synthetic VAT line (lines 879-884). -/
def vatItemRow (itemId invoiceId : Nat) (vat : ℤ) : InvoiceItem :=
  { id := itemId, invoiceId := invoiceId, serviceCode := "VAT_7",
    description := "VAT 7%", qty := 1, unitPriceKrw := ((vat : ℤ) : ℚ),
    amountKrw := ((vat : ℤ) : ℚ), deleted := false }

/-- Steps 6-10 of generation, after the fx rate is locked and the PENDING
events are known to be non-empty (lines 799-909). -/
def generateCore (st1 : Db) (p : GenPayload) (fxRow : ExchangeRate)
    (events : List BillingEvent) : GenOk × Db :=
  let fx := fxRow.rate
  let yyyymm := jsRemoveFirstDash p.invoiceMonth
  let rs := resolveInvoiceSequence st1 p.clientId yyyymm
  let nextSeq := rs.1
  let st2 := rs.2
  let invoiceNo := mkInvoiceNo "KRW" p.clientId yyyymm nextSeq
  let invoiceId := st2.nextInvoiceId
  let draft := draftInvoiceRow p invoiceId invoiceNo fx
  let st3 := { st2 with
    invoices := st2.invoices ++ [draft],
    nextInvoiceId := invoiceId + 1 }
  let st4 := events.foldl (markEventInvoiced fx invoiceId) st3
  let groups := eventGroups fx events
  let st5 := insertGroupItems st4 invoiceId groups
  let subtotal := invoiceSubtotal fx events
  let vat := invoiceVat fx events
  let total := invoiceTotal fx events
  let st6 := { st5 with
    invoiceItems := st5.invoiceItems ++ [vatItemRow st5.nextInvoiceItemId invoiceId vat],
    nextInvoiceItemId := st5.nextInvoiceItemId + 1 }
  let finalInvoice := { draft with
    subtotalKrw := ((subtotal : ℤ) : ℚ),
    vatKrw := ((vat : ℤ) : ℚ),
    totalKrw := ((total : ℤ) : ℚ),
    totalAmount := ((total : ℤ) : ℚ) }
  let st7 := { st6 with
    invoices := st6.invoices.map fun i =>
      if i.id = invoiceId then
        { i with
          subtotalKrw := ((subtotal : ℤ) : ℚ),
          vatKrw := ((vat : ℤ) : ℚ),
          totalKrw := ((total : ℤ) : ℚ),
          totalAmount := ((total : ℤ) : ℚ) }
      else i }
  (.created finalInvoice events.length fxRow.id, st7)

/-- Steps 3-10 of generation: fx selection and lock, PENDING-event selection,
then `generateCore` (lines 752-909). The final SELECT of the handler returns
the row just written, which is the `finalInvoice` value built above. -/
def generateFresh (st : Db) (p : GenPayload) : Except String (GenOk × Db) :=
  match fxLookup st p.invoiceDate with
  | none => .error "FX_NOT_FOUND"
  | some fxRow =>
    match pendingEventsFor (lockRate st fxRow.id) p.clientId p.invoiceMonth with
    | [] => .error "NO_PENDING_EVENTS"
    | e :: es =>
      .ok (generateCore (lockRate st fxRow.id) p fxRow (e :: es))

/-- The transaction body of `POST /billing/invoices/generate`
(lines 708-910): existing-invoice guard, optional draft regeneration, then
fresh generation. -/
def generateTx (st : Db) (p : GenPayload) : Except String (GenOk × Db) :=
  match latestInvoiceFor st p.clientId p.invoiceMonth with
  | some existing =>
    if jsToLower existing.status ≠ "draft" then .error "INVOICE_ALREADY_ISSUED"
    else if p.regenerateDraft = 0 then .ok (.reused existing.id, st)
    else
      generateFresh
        (tombstoneInvoice (tombstoneItemsOf (releaseEventsOf st existing.id)
          existing.id) existing.id) p
  | none => generateFresh st p

/-- `POST /billing/invoices/generate`: the transaction body run inside
`withTransaction` (line 708). -/
def generateInvoice (st : Db) (p : GenPayload) : Except String GenOk × Db :=
  withTransaction st fun s => generateTx s p

/-- Predicate selecting the live service lines of one invoice, excluding the
synthetic VAT line. -/
def isCountedItem (invoiceId : Nat) (it : InvoiceItem) : Bool :=
  it.invoiceId = invoiceId && !it.deleted && !(it.serviceCode = "VAT_7")

/-- The live non-VAT items of one invoice. -/
def nonVatItemsOf (st : Db) (invoiceId : Nat) : List InvoiceItem :=
  st.invoiceItems.filter (isCountedItem invoiceId)

/-- Fixture: a KRW-fixed pending event. -/
def c1Event : BillingEvent :=
  { id := 1, clientId := 7, serviceCode := "OUTBOUND_FEE",
    eventDate := "2026-01-10", qty := 3, pricingPolicy := "KRW_FIXED",
    amountKrw := some 10500, status := "PENDING" }

/-- Fixture: an unlocked active THB→KRW rate. -/
def c1Rate : ExchangeRate := { id := 1, rateDate := "2026-01-05", rate := 40 }

/-- Fixture: a database with one pending event and one fx rate. -/
def c1Db : Db := { billingEvents := [c1Event], exchangeRates := [c1Rate] }

/-- Fixture: a generation payload for client 7, month 2026-01. -/
def c1P : GenPayload :=
  { clientId := 7, invoiceMonth := "2026-01", invoiceDate := "2026-01-31" }

/-! ### Settlement-batch invoice issue (`POST /invoices/issue`,
billingEngine.js lines 1354-1488) -/

/-- `SELECT … FROM settlement_batches WHERE id = ? AND deleted_at IS NULL
LIMIT 1` (lines 1359-1365, also used with FOR UPDATE by close/reopen). -/
def findBatch (st : Db) (batchId : Nat) : Option SettlementBatch :=
  st.settlementBatches.find? fun b => b.id = batchId && !b.deleted

/-- `SELECT … FROM invoices WHERE settlement_batch_id = ? AND deleted_at IS
NULL LIMIT 1` (lines 1371-1377). -/
def invoiceForBatch (st : Db) (batchId : Nat) : Option Invoice :=
  st.invoices.find? fun i => i.settlementBatchId = some batchId && !i.deleted

/-- Payload of `POST /invoices/issue` after zod validation. -/
structure IssuePayload where
  settlementBatchId : Nat
  issueDate : String
  dueDate : String
  recipientEmail : Option String := none
  createdBy : Nat
  deriving Repr, DecidableEq

/-- Result payloads of `POST /invoices/issue`. -/
inductive IssueOk where
  | reused (invoice : Invoice)
  | created (invoice : Invoice) (linesCount : Nat)
  deriving Repr, DecidableEq

/-- The invoice row inserted by the settlement issue path (lines 1417-1431):
status `issued` directly, number prefix the literal `INV`, no invoice month,
total copied from the batch. -/
def issuedInvoiceRow (batch : SettlementBatch) (p : IssuePayload)
    (invoiceId : Nat) (invoiceNo : String) : Invoice :=
  { id := invoiceId, settlementBatchId := some batch.id,
    clientId := batch.clientId, invoiceMonth := none, invoiceNo := invoiceNo,
    status := "issued", issueDate := some p.issueDate, invoiceDate := none,
    dueDate := some p.dueDate, recipientEmail := p.recipientEmail,
    currency := "KRW", fxRateThbkrw := none, subtotalKrw := 0, vatKrw := 0,
    totalKrw := 0, totalAmount := batch.totalKrw, createdBy := p.createdBy,
    deleted := false }

/-- The live settlement lines of a batch, in id order (lines 1434-1440). -/
def linesForBatch (st : Db) (batchId : Nat) : List SettlementLine :=
  st.settlementLines.filter fun l => l.settlementBatchId = batchId && !l.deleted

/-- The 1:1 copy of settlement lines into invoice lines (lines 1442-1462). -/
def invoiceLinesFrom (startId invoiceId : Nat) :
    List SettlementLine → List InvoiceLine
  | [] => []
  | l :: rest =>
    { id := startId, invoiceId := invoiceId, settlementLineId := l.id,
      serviceId := l.serviceId, lineType := l.lineType,
      description := l.description, qty := l.qty, unit := l.basis,
      currency := l.currency, unitPrice := l.unitPrice, amount := l.amount,
      extraAmount := l.extraAmount, totalAmount := l.totalAmount,
      deleted := false } :: invoiceLinesFrom (startId + 1) invoiceId rest

/-- Transaction body of `POST /invoices/issue` (lines 1356-1479): idempotent
reuse of an existing invoice for the batch, otherwise allocation from the
shared (client, yyyymm) sequence counter (the inline queries of lines
1390-1413 are the same statements as `resolveInvoiceSequence`) and the
insert/copy. -/
def issueInvoiceTx (st : Db) (p : IssuePayload) :
    Except String (IssueOk × Db) :=
  match findBatch st p.settlementBatchId with
  | none => .error "BATCH_NOT_FOUND"
  | some batch =>
    match invoiceForBatch st batch.id with
    | some existing => .ok (.reused existing, st)
    | none =>
      let yyyymm := jsRemoveFirstDash batch.billingMonth
      let rs := resolveInvoiceSequence st batch.clientId yyyymm
      let st2 := rs.2
      let invoiceNo := mkInvoiceNo "INV" batch.clientId yyyymm rs.1
      let invoiceId := st2.nextInvoiceId
      let inv := issuedInvoiceRow batch p invoiceId invoiceNo
      let lines := linesForBatch st2 batch.id
      let st3 := { st2 with
        invoices := st2.invoices ++ [inv],
        nextInvoiceId := invoiceId + 1,
        invoiceLines :=
          st2.invoiceLines ++ invoiceLinesFrom st2.nextInvoiceLineId invoiceId lines,
        nextInvoiceLineId := st2.nextInvoiceLineId + lines.length }
      .ok (.created inv lines.length, st3)

/-- `POST /invoices/issue`. -/
def issueInvoiceFromBatch (st : Db) (p : IssuePayload) :
    Except String IssueOk × Db :=
  withTransaction st fun s => issueInvoiceTx s p

/-! ### Claim C4: invoice numbering -/

/-- Fixture: a reviewed settlement batch. -/
def c4Batch : SettlementBatch :=
  { id := 1, clientId := 7, billingMonth := "2026-01", status := "reviewed",
    totalKrw := 1000 }

/-- Fixture: a database holding only that batch. -/
def c4Db : Db := { settlementBatches := [c4Batch] }

/-- Fixture: an issue payload for the batch. -/
def c4Payload : IssuePayload :=
  { settlementBatchId := 1, issueDate := "2026-02-01", dueDate := "2026-02-15",
    createdBy := 1 }

/-! ### Claim C5: exchange-rate immutability
(`PUT`/`DELETE /billing/settings/exchange-rates/:id`, billingEngine.js
lines 451-524, and `getExchangeRateUsageCount`, lines 49-60) -/

/-- `SELECT id, locked FROM exchange_rates WHERE id = ? AND deleted_at IS NULL
LIMIT 1` (lines 455-457 and 502-504). -/
def findExchangeRate (st : Db) (rid : Nat) : Option ExchangeRate :=
  st.exchangeRates.find? fun r => r.id = rid && !r.deleted

/-- `getExchangeRateUsageCount` (lines 49-60): the number of non-deleted
invoices with a non-null invoice month whose stored fx rate equals the rate's
value. -/
def exchangeRateUsageCount (st : Db) (rate : ℚ) : Nat :=
  (st.invoices.filter fun i =>
    !i.deleted && !(i.invoiceMonth = none) && i.fxRateThbkrw = some rate).length

/-- Payload of the exchange-rate update route after zod validation. -/
structure RatePayload where
  rateDate : String
  rate : ℚ
  source : String := "manual"
  locked : Nat := 0
  status : String := "active"
  deriving Repr, DecidableEq

/-- `PUT /billing/settings/exchange-rates/:id` (lines 451-497). -/
def updateExchangeRate (st : Db) (rid : Nat) (payload : RatePayload) :
    Except String Unit × Db :=
  match findExchangeRate st rid with
  | none => (.error "NOT_FOUND", st)
  | some row =>
    if row.locked = 1 ∨ 0 < exchangeRateUsageCount st row.rate then
      (.error "EXCHANGE_RATE_LOCKED", st)
    else
      (.ok (),
        { st with
          exchangeRates := st.exchangeRates.map fun r =>
            if r.id = rid && !r.deleted then
              { r with rateDate := payload.rateDate, rate := payload.rate,
                       source := payload.source, locked := payload.locked,
                       status := payload.status }
            else r })

/-- `DELETE /billing/settings/exchange-rates/:id` (lines 499-524). -/
def deleteExchangeRate (st : Db) (rid : Nat) : Except String Unit × Db :=
  match findExchangeRate st rid with
  | none => (.error "NOT_FOUND", st)
  | some row =>
    if row.locked = 1 ∨ 0 < exchangeRateUsageCount st row.rate then
      (.error "EXCHANGE_RATE_LOCKED", st)
    else
      (.ok (),
        { st with
          exchangeRates := st.exchangeRates.map fun r =>
            if r.id = rid && !r.deleted then { r with deleted := true } else r })

/-- Fixture: an unlocked rate referenced by a draft invoice. -/
def c5Rate : ExchangeRate :=
  { id := 1, rateDate := "2026-01-05", rate := 40, locked := 0 }

/-- Fixture: a draft invoice whose stored fx rate equals the rate's value. -/
def c5Invoice : Invoice :=
  { id := 1, clientId := 7, invoiceMonth := some "2026-01",
    invoiceNo := "KRW-7-202601-0001", status := "draft",
    fxRateThbkrw := some 40 }

/-- Fixture: a database holding that rate and invoice. -/
def c5Db : Db := { invoices := [c5Invoice], exchangeRates := [c5Rate] }

/-! ### Claims about the settlement-batch lifecycle
(`POST /settlement-batches/:id/close`, lines 1522-1595, and
`POST /settlement-batches/:id/reopen-requests`, lines 1597-1669) -/

/-- Payload of the close route after zod validation. -/
structure CloseBatchPayload where
  closedBy : Nat
  reason : Option String := none
  deriving Repr, DecidableEq

/-- Payload of the reopen-request route after zod validation. -/
structure ReopenRequestPayload where
  requestedBy : Nat
  reason : String
  deriving Repr, DecidableEq

/-- `SELECT id FROM settlement_reopen_requests WHERE settlement_batch_id = ?
AND status = 'requested' AND deleted_at IS NULL LIMIT 1` (lines 1630-1636). -/
def pendingReopenRequestFor (st : Db) (batchId : Nat) : Option ReopenRequest :=
  st.reopenRequests.find? fun rq =>
    rq.settlementBatchId = batchId && rq.status = "requested" && !rq.deleted

/-- Transaction body of the close route (lines 1527-1585): guard against
missing, already-closed and non-reviewed/open batches, then update the batch
and append a 'close' audit log row. -/
def closeBatchTx (st : Db) (batchId : Nat) (p : CloseBatchPayload) :
    Except String SettlementBatch × Db :=
  match findBatch st batchId with
  | none => (.error "BATCH_NOT_FOUND", st)
  | some b =>
    if b.status = "closed" then (.error "ALREADY_CLOSED", st)
    else if ¬(b.status = "reviewed" ∨ b.status = "open") then
      (.error "INVALID_STATUS", st)
    else
      let st1 : Db := { st with
        settlementBatches := st.settlementBatches.map fun x =>
          if x.id = batchId then
            { x with
              status := "closed",
              closedAt := some st.now,
              closedBy := some p.closedBy }
          else x }
      let st2 : Db := { st1 with
        reopenLogs := st1.reopenLogs ++
          [⟨st1.nextReopenLogId, batchId, none, p.closedBy, "close", p.reason,
            st1.now, false⟩],
        nextReopenLogId := st1.nextReopenLogId + 1 }
      (.ok
        { b with
          status := "closed",
          closedAt := some st.now,
          closedBy := some p.closedBy },
        st2)

/-- Transaction body of the reopen-request route (lines 1602-1658): only a
closed batch may be reopened, and only when no request with status
`requested` already exists for it. -/
def createReopenRequestTx (st : Db) (batchId : Nat) (p : ReopenRequestPayload) :
    Except String ReopenRequest × Db :=
  match findBatch st batchId with
  | none => (.error "BATCH_NOT_FOUND", st)
  | some b =>
    if ¬(b.status = "closed") then (.error "INVALID_STATUS", st)
    else
      match pendingReopenRequestFor st batchId with
      | some _ => (.error "REQUEST_EXISTS", st)
      | none =>
        let rq : ReopenRequest :=
          ⟨st.nextReopenRequestId, batchId, p.requestedBy, p.reason,
            "requested", none, none, false⟩
        (.ok rq,
          { st with reopenRequests := st.reopenRequests ++ [rq],
                    nextReopenRequestId := st.nextReopenRequestId + 1 })

/-- The number of outstanding `requested` reopen requests of a batch. -/
def requestedCount (st : Db) (batchId : Nat) : Nat :=
  (st.reopenRequests.filter fun rq =>
    rq.settlementBatchId = batchId && rq.status = "requested" && !rq.deleted).length

/-- Fixture: a closed settlement batch with one outstanding reopen request. -/
def c8Batch : SettlementBatch :=
  { id := 1, clientId := 7, billingMonth := "2026-01", status := "closed",
    closedBy := some 2 }

/-- Fixture: the outstanding reopen request of that batch. -/
def c8Request : ReopenRequest :=
  { id := 1, settlementBatchId := 1, requestedBy := 3, reason := "fix",
    status := "requested" }

/-- Fixture: a database holding the closed batch and its pending request. -/
def c8Db : Db := { settlementBatches := [c8Batch], reopenRequests := [c8Request] }

/-! ### Claim C9: mark-pending and invoice-locked events
(`POST /billing/events/mark-pending`, billingEngine.js lines 588-632) -/

/-- The invoice status joined to a billing event by
`LEFT JOIN invoices i ON i.id = be.invoice_id AND i.deleted_at IS NULL`
(lines 595-601): `none` when the event has no invoice or the invoice is
deleted. -/
def linkedLiveInvoiceStatus (st : Db) (e : BillingEvent) : Option String :=
  match e.invoiceId with
  | none => none
  | some iid =>
    (st.invoices.find? fun i => i.id = iid && !i.deleted).map fun i => i.status

/-- An event whose linked live invoice is ISSUED or PAID (the `blocked`
filter of line 608). -/
def eventInvoiceLocked (st : Db) (e : BillingEvent) : Bool :=
  jsToLower ((linkedLiveInvoiceStatus st e).getD "") = "issued" ||
    jsToLower ((linkedLiveInvoiceStatus st e).getD "") = "paid"

/-- The per-row effect of the UPDATE of lines 617-622
(`WHERE id IN (?) AND deleted_at IS NULL`). -/
def resetPendingRow (ids : List Nat) (e : BillingEvent) : BillingEvent :=
  if e.id ∈ ids && !e.deleted then
    { e with status := "PENDING", invoiceId := none, fxRateThbkrw := none }
  else e

/-- Transaction body of `POST /billing/events/mark-pending`
(lines 592-625). -/
def markPendingTx (st : Db) (ids : List Nat) : Except String Nat × Db :=
  let rows := st.billingEvents.filter fun e => e.id ∈ ids && !e.deleted
  if rows.isEmpty then (.error "EVENTS_NOT_FOUND", st)
  else if !(rows.filter fun e => eventInvoiceLocked st e).isEmpty then
    (.error "EVENTS_LOCKED", st)
  else
    (.ok rows.length,
      { st with billingEvents := st.billingEvents.map (resetPendingRow ids) })

/-- Fixture: an issued invoice. -/
def c9Invoice : Invoice :=
  { id := 5, clientId := 7, invoiceMonth := some "2026-01",
    invoiceNo := "KRW-7-202601-0001", status := "issued" }

/-- Fixture: a billing event linked to that issued invoice. -/
def c9Event : BillingEvent :=
  { id := 1, clientId := 7, serviceCode := "TH_SHIPPING",
    eventDate := "2026-01-10", qty := 1, pricingPolicy := "THB_BASED",
    amountThb := some 120, invoiceId := some 5, status := "INVOICED" }

/-- Fixture: a database holding the locked event and its invoice. -/
def c9Db : Db := { invoices := [c9Invoice], billingEvents := [c9Event] }

/-! ### Claim C6: actor ids on mutating operations -/

/-- `parseCreator` (billingEngine.js lines 24-28): prefer a truthy payload
`created_by`, else the authenticated user id (`req.user.sub`) when positive,
else the literal fallback `1`. -/
def parseCreator (userSub : Option Int) (payloadCreatedBy : Option Int) : Int :=
  match payloadCreatedBy with
  | some v =>
    if v ≠ 0 then v
    else if userSub.getD 0 > 0 then userSub.getD 0 else 1
  | none => if userSub.getD 0 > 0 then userSub.getD 0 else 1

/-- zod `z.coerce.number().int().positive()` on a required actor field
(settlement `created_by`, `closed_by`, `requested_by`, `approved_by`:
billingEngine.js lines 1140-1169): a missing value fails validation. -/
def validateRequiredActor : Option Int → Bool
  | none => false
  | some v => v > 0

/-- zod `z.coerce.number().int().positive().optional()` on
`generateInvoiceSchema.created_by` (line 139): a missing value passes. -/
def validateOptionalCreator : Option Int → Bool
  | none => true
  | some v => v > 0

/-! ### Claim C7: price resolution and billing-event upsert
(`apps/api/src/services/billing.js`) -/

/-- A `price_policies` row (dates modelled as day ordinals). -/
structure PricePolicy where
  id : Nat
  clientId : Nat
  serviceId : Nat
  unitPrice : ℚ
  currency : String
  status : String := "active"
  effectiveFrom : Int
  effectiveTo : Option Int := none
  deleted : Bool := false
  deriving Repr, DecidableEq

/-- The `service_catalog` columns used by the join in
`resolveActivePricePolicy`. -/
structure CatalogService where
  id : Nat
  billingBasis : String
  status : String := "active"
  deleted : Bool := false
  deriving Repr, DecidableEq

/-- A `service_events` row (the columns written by the upsert). -/
structure ServiceEvent where
  id : Nat
  clientId : Nat
  serviceId : Nat
  outboundOrderId : Nat
  stockTransactionId : Nat
  eventDate : Nat := 0
  sourceType : String := "outbound_shipped"
  basisApplied : String
  qty : ℚ
  boxCount : ℚ
  unitPrice : ℚ
  amount : ℚ
  currency : String
  remark : Option String := none
  deleted : Bool := false
  deriving Repr, DecidableEq

/-- The store seen by apps/api/src/services/billing.js. -/
structure ApiDb where
  pricePolicies : List PricePolicy := []
  services : List CatalogService := []
  serviceEvents : List ServiceEvent := []
  nextServiceEventId : Nat := 1
  now : Nat := 0
  deriving Repr, DecidableEq

/-- The row shape returned by `resolveActivePricePolicy`. -/
structure ResolvedPolicy where
  id : Nat
  serviceId : Nat
  unitPrice : ℚ
  currency : String
  billingBasis : String
  deriving Repr, DecidableEq

/-- The WHERE clause of `resolveActivePricePolicy` (billing.js lines 6-12)
restricted to the policy row: active, not deleted, effective_from ≤ date and
(effective_to null or ≥ date). -/
def policyActive (clientId : Nat) (onDate : Int) (pp : PricePolicy) : Bool :=
  pp.clientId = clientId && pp.status = "active" && !pp.deleted &&
    decide (pp.effectiveFrom ≤ onDate) &&
    (match pp.effectiveTo with
     | none => true
     | some t => decide (onDate ≤ t))

/-- The JOIN partner: the active, non-deleted catalog row of the policy's
service (billing.js lines 4-5, 9-10). -/
def catalogRowFor (db : ApiDb) (sid : Nat) : Option CatalogService :=
  db.services.find? fun sc => sc.id = sid && sc.status = "active" && !sc.deleted

/-- One step of `ORDER BY pp.effective_from DESC, pp.id DESC LIMIT 1`
(billing.js line 13): keep the row with the lexicographically larger
(effective_from, id). -/
def pickBetterPolicy (acc : Option PricePolicy) (pp : PricePolicy) :
    Option PricePolicy :=
  match acc with
  | none => some pp
  | some b =>
    if b.effectiveFrom < pp.effectiveFrom ∨
        (b.effectiveFrom = pp.effectiveFrom ∧ b.id < pp.id) then some pp
    else some b

/-- `ORDER BY effective_from DESC, id DESC LIMIT 1` over the candidates. -/
def pickLatestPolicy (l : List PricePolicy) : Option PricePolicy :=
  l.foldl pickBetterPolicy none

/-- `resolveActivePricePolicy` (billing.js lines 1-18). -/
def resolveActivePricePolicy (db : ApiDb) (clientId : Nat) (onDate : Int) :
    Option ResolvedPolicy :=
  let cands := db.pricePolicies.filter fun pp =>
    policyActive clientId onDate pp && (catalogRowFor db pp.serviceId).isSome
  match pickLatestPolicy cands with
  | none => none
  | some pp =>
    match catalogRowFor db pp.serviceId with
    | some sc => some ⟨pp.id, pp.serviceId, pp.unitPrice, pp.currency, sc.billingBasis⟩
    | none => none

/-- `calcAmountByBasis` (billing.js lines 20-28): QTY→qty, BOX→boxCount,
ORDER→1, otherwise 0. -/
def basisUnits (basis : String) (qty boxCount : ℚ) : ℚ :=
  if basis = "QTY" then qty
  else if basis = "BOX" then boxCount
  else if basis = "ORDER" then 1
  else 0

/-- JS `Number(x.toFixed(4))`: rounding to 4 decimal places. -/
def round4 (x : ℚ) : ℚ := ((⌊x * 10000 + 1 / 2⌋ : ℤ) : ℚ) / 10000

/-- Parameters of `upsertOutboundServiceEvent` (billing.js lines 30-39). -/
structure UpsertParams where
  clientId : Nat
  outboundOrderId : Nat
  stockTransactionId : Nat
  orderDate : Int
  qty : ℚ
  boxCount : ℚ
  remark : Option String := none
  deriving Repr, DecidableEq

/-- `upsertOutboundServiceEvent` (billing.js lines 30-104): resolve the
active price; with none, return null and write nothing; otherwise insert or
reactivate-and-update the event row keyed by
(source_type='outbound_shipped', stock_transaction_id). -/
def upsertOutboundServiceEvent (db : ApiDb) (prm : UpsertParams) :
    Option Nat × ApiDb :=
  match resolveActivePricePolicy db prm.clientId prm.orderDate with
  | none => (none, db)
  | some policy =>
    let bu := basisUnits policy.billingBasis prm.qty prm.boxCount
    let amount := round4 (policy.unitPrice * bu)
    match db.serviceEvents.find? fun se =>
        se.sourceType = "outbound_shipped" &&
          se.stockTransactionId = prm.stockTransactionId with
    | none =>
      let se : ServiceEvent :=
        { id := db.nextServiceEventId, clientId := prm.clientId,
          serviceId := policy.serviceId,
          outboundOrderId := prm.outboundOrderId,
          stockTransactionId := prm.stockTransactionId,
          eventDate := db.now, basisApplied := policy.billingBasis,
          qty := prm.qty, boxCount := prm.boxCount,
          unitPrice := policy.unitPrice, amount := amount,
          currency := policy.currency, remark := prm.remark }
      (some se.id,
        { db with serviceEvents := db.serviceEvents ++ [se],
                  nextServiceEventId := db.nextServiceEventId + 1 })
    | some ex =>
      (some ex.id,
        { db with serviceEvents := db.serviceEvents.map fun se =>
            if se.id = ex.id then
              { se with clientId := prm.clientId,
                        serviceId := policy.serviceId,
                        outboundOrderId := prm.outboundOrderId,
                        eventDate := db.now,
                        basisApplied := policy.billingBasis,
                        qty := prm.qty, boxCount := prm.boxCount,
                        unitPrice := policy.unitPrice, amount := amount,
                        currency := policy.currency, remark := prm.remark,
                        deleted := false }
            else se })

/-- The lexicographic "at most" order realised by
`ORDER BY effective_from DESC, id DESC`. -/
def polLe (q pp : PricePolicy) : Prop :=
  q.effectiveFrom < pp.effectiveFrom ∨
    (q.effectiveFrom = pp.effectiveFrom ∧ q.id ≤ pp.id)

/-- Fixture: an active THB policy for client 7. -/
def c7Policy : PricePolicy :=
  { id := 1, clientId := 7, serviceId := 2, unitPrice := 120,
    currency := "THB", effectiveFrom := 100 }

/-- Fixture: the active catalog row of the policy's service. -/
def c7Service : CatalogService := { id := 2, billingBasis := "ORDER" }

/-- Fixture: a store with the policy and service. -/
def c7Db : ApiDb := { pricePolicies := [c7Policy], services := [c7Service] }

/-- Fixture: a store with no price policies. -/
def c7EmptyDb : ApiDb := {}

/-! ## Theorems -/

/-! ### Arithmetic facts about `trunc100` -/

theorem dvd_trunc100 (v : ℚ) : (100 : ℤ) ∣ trunc100 v :=
  ⟨⌊v / 100⌋, mul_comm _ _⟩

theorem trunc100_intCast_mul (k : ℤ) : trunc100 (((100 * k : ℤ) : ℚ)) = 100 * k := by
  unfold trunc100
  have h : ((100 * k : ℤ) : ℚ) / 100 = (k : ℚ) := by
    push_cast
    field_simp
  rw [h, Int.floor_intCast, mul_comm]

theorem trunc100_of_dvd {n : ℤ} (h : (100 : ℤ) ∣ n) : trunc100 ((n : ℤ) : ℚ) = n := by
  obtain ⟨k, hk⟩ := h
  subst hk
  exact trunc100_intCast_mul k

theorem dvd_sum_lineAmounts (gs : List Group) :
    (100 : ℤ) ∣ (gs.map lineAmount).sum := by
  induction gs with
  | nil => simp
  | cons g rest ih =>
    simp only [List.map_cons, List.sum_cons]
    exact dvd_add (dvd_trunc100 _) ih

theorem invoiceSubtotal_eq_sum (fx : ℚ) (events : List BillingEvent) :
    invoiceSubtotal fx events = ((eventGroups fx events).map lineAmount).sum := by
  unfold invoiceSubtotal
  exact trunc100_of_dvd (dvd_sum_lineAmounts _)

theorem invoiceTotal_eq_subtotal_add_vat (fx : ℚ) (events : List BillingEvent) :
    invoiceTotal fx events = invoiceSubtotal fx events + invoiceVat fx events := by
  unfold invoiceTotal
  exact trunc100_of_dvd
    (dvd_add (dvd_trunc100 _) (dvd_trunc100 _))

/-! ### Structural lemmas about the generation steps -/

/-- `resolveInvoiceSequence` only writes the sequence table. -/
theorem resolveInvoiceSequence_shape (s : Db) (c : Nat) (y : String) :
    ∃ n seqs nid,
      resolveInvoiceSequence s c y =
        (n, { s with invoiceSequences := seqs, nextSequenceRowId := nid }) := by
  cases h : findSequenceRow s c y with
  | none =>
    refine ⟨1, s.invoiceSequences ++ [⟨s.nextSequenceRowId, c, y, 1, false⟩],
      s.nextSequenceRowId + 1, ?_⟩
    simp [resolveInvoiceSequence, h]
  | some row =>
    refine ⟨row.lastSeq + 1,
      s.invoiceSequences.map fun q =>
        if q.id = row.id then { q with lastSeq := row.lastSeq + 1 } else q,
      s.nextSequenceRowId, ?_⟩
    simp [resolveInvoiceSequence, h]

/-- The per-event UPDATE loop only writes the billing-event table. -/
theorem foldl_markEventInvoiced_shape (fx : ℚ) (iid : Nat) :
    ∀ (l : List BillingEvent) (s : Db),
      ∃ bes, l.foldl (markEventInvoiced fx iid) s = { s with billingEvents := bes }
  | [], s => ⟨s.billingEvents, rfl⟩
  | e :: rest, s => by
    obtain ⟨bes, hb⟩ :=
      foldl_markEventInvoiced_shape fx iid rest (markEventInvoiced fx iid s e)
    exact ⟨bes, by rw [List.foldl_cons, hb]; rfl⟩

/-- Every bucket produced by `addToGroups` carries either the new code or a
code already present. -/
theorem addToGroups_code (gs : List Group) (c : String) (q : ℚ) (a : ℤ) :
    ∀ g ∈ addToGroups gs c q a,
      g.serviceCode = c ∨ ∃ g' ∈ gs, g.serviceCode = g'.serviceCode := by
  induction gs with
  | nil =>
    intro g hg
    simp [addToGroups] at hg
    subst hg
    exact Or.inl rfl
  | cons g0 rest ih =>
    intro g hg
    by_cases h0 : g0.serviceCode = c
    · rw [show addToGroups (g0 :: rest) c q a =
          { g0 with qty := g0.qty + q, amountKrw := g0.amountKrw + a } :: rest from by
            simp [addToGroups, h0]] at hg
      rcases List.mem_cons.mp hg with hg | hg
      · subst hg; exact Or.inl h0
      · exact Or.inr ⟨g, List.mem_cons_of_mem _ hg, rfl⟩
    · rw [show addToGroups (g0 :: rest) c q a = g0 :: addToGroups rest c q a from by
          simp [addToGroups, h0]] at hg
      rcases List.mem_cons.mp hg with hg | hg
      · subst hg; exact Or.inr ⟨g, List.mem_cons_self _ _, rfl⟩
      · rcases ih g hg with h | ⟨g', hg', hc⟩
        · exact Or.inl h
        · exact Or.inr ⟨g', List.mem_cons_of_mem _ hg', hc⟩

/-- Every service code appearing in the aggregation comes from some event. -/
theorem eventGroups_code (fx : ℚ) (events : List BillingEvent) :
    ∀ g ∈ eventGroups fx events, ∃ e ∈ events, g.serviceCode = e.serviceCode := by
  have main : ∀ (l : List BillingEvent) (gs0 : List Group) (g : Group),
      g ∈ l.foldl
        (fun gs e => addToGroups gs e.serviceCode e.qty (normalizedAmount fx e)) gs0 →
      (∃ e ∈ l, g.serviceCode = e.serviceCode) ∨
        ∃ g' ∈ gs0, g.serviceCode = g'.serviceCode := by
    intro l
    induction l with
    | nil => intro gs0 g hg; exact Or.inr ⟨g, hg, rfl⟩
    | cons e rest ih =>
      intro gs0 g hg
      rcases ih _ g hg with ⟨e', he', hc⟩ | ⟨g', hg', hc⟩
      · exact Or.inl ⟨e', by simp [he'], hc⟩
      · rcases addToGroups_code gs0 e.serviceCode _ _ g' hg' with h' | ⟨g'', hg'', hc''⟩
        · exact Or.inl ⟨e, by simp, hc.trans h'⟩
        · exact Or.inr ⟨g'', hg'', hc.trans hc''⟩
  intro g hg
  rcases main events [] g hg with h | h
  · exact h
  · simp at h

theorem lockRate_invoiceItems (st : Db) (rid : Nat) :
    (lockRate st rid).invoiceItems = st.invoiceItems := rfl

theorem lockRate_invoices (st : Db) (rid : Nat) :
    (lockRate st rid).invoices = st.invoices := rfl

theorem lockRate_serviceCatalog (st : Db) (rid : Nat) :
    (lockRate st rid).serviceCatalog = st.serviceCatalog := rfl

theorem lockRate_nextInvoiceId (st : Db) (rid : Nat) :
    (lockRate st rid).nextInvoiceId = st.nextInvoiceId := rfl

theorem lockRate_nextInvoiceItemId (st : Db) (rid : Nat) :
    (lockRate st rid).nextInvoiceItemId = st.nextInvoiceItemId := rfl

theorem lockRate_invoiceSequences (st : Db) (rid : Nat) :
    (lockRate st rid).invoiceSequences = st.invoiceSequences := rfl

theorem insertGroupItems_invoices (s : Db) (iid : Nat) (gs : List Group) :
    (insertGroupItems s iid gs).invoices = s.invoices := rfl

theorem insertGroupItems_invoiceItems (s : Db) (iid : Nat) (gs : List Group) :
    (insertGroupItems s iid gs).invoiceItems =
      s.invoiceItems ++ groupItems s.serviceCatalog s.nextInvoiceItemId iid gs := rfl

theorem insertGroupItems_nextInvoiceItemId (s : Db) (iid : Nat) (gs : List Group) :
    (insertGroupItems s iid gs).nextInvoiceItemId =
      s.nextInvoiceItemId + gs.length := rfl

theorem insertGroupItems_serviceCatalog (s : Db) (iid : Nat) (gs : List Group) :
    (insertGroupItems s iid gs).serviceCatalog = s.serviceCatalog := rfl

theorem foldl_markEventInvoiced_invoiceItems (fx : ℚ) (iid : Nat)
    (l : List BillingEvent) (s : Db) :
    (l.foldl (markEventInvoiced fx iid) s).invoiceItems = s.invoiceItems := by
  obtain ⟨bes, h⟩ := foldl_markEventInvoiced_shape fx iid l s
  rw [h]

theorem foldl_markEventInvoiced_invoices (fx : ℚ) (iid : Nat)
    (l : List BillingEvent) (s : Db) :
    (l.foldl (markEventInvoiced fx iid) s).invoices = s.invoices := by
  obtain ⟨bes, h⟩ := foldl_markEventInvoiced_shape fx iid l s
  rw [h]

theorem foldl_markEventInvoiced_serviceCatalog (fx : ℚ) (iid : Nat)
    (l : List BillingEvent) (s : Db) :
    (l.foldl (markEventInvoiced fx iid) s).serviceCatalog = s.serviceCatalog := by
  obtain ⟨bes, h⟩ := foldl_markEventInvoiced_shape fx iid l s
  rw [h]

theorem foldl_markEventInvoiced_nextInvoiceItemId (fx : ℚ) (iid : Nat)
    (l : List BillingEvent) (s : Db) :
    (l.foldl (markEventInvoiced fx iid) s).nextInvoiceItemId =
      s.nextInvoiceItemId := by
  obtain ⟨bes, h⟩ := foldl_markEventInvoiced_shape fx iid l s
  rw [h]

theorem foldl_markEventInvoiced_nextInvoiceId (fx : ℚ) (iid : Nat)
    (l : List BillingEvent) (s : Db) :
    (l.foldl (markEventInvoiced fx iid) s).nextInvoiceId = s.nextInvoiceId := by
  obtain ⟨bes, h⟩ := foldl_markEventInvoiced_shape fx iid l s
  rw [h]

/-- The inserted group items sum to the sum of the truncated line amounts. -/
theorem groupItems_amount_sum (cat : List ServiceCatalogRow) (iid : Nat) :
    ∀ (gs : List Group) (startId : Nat),
      (((groupItems cat startId iid gs).map fun it => it.amountKrw)).sum =
        (((gs.map lineAmount).sum : ℤ) : ℚ)
  | [], _ => by simp [groupItems]
  | g :: rest, startId => by
    have ih := groupItems_amount_sum cat iid rest (startId + 1)
    simp [groupItems, ih]
    try push_cast
    try ring

/-- All inserted group items are counted by `isCountedItem` (none of them is
the synthetic VAT line). -/
theorem groupItems_filter_counted (cat : List ServiceCatalogRow) (iid : Nat) :
    ∀ (gs : List Group) (startId : Nat),
      (∀ g ∈ gs, ¬ g.serviceCode = "VAT_7") →
      (groupItems cat startId iid gs).filter (isCountedItem iid) =
        groupItems cat startId iid gs
  | [], _, _ => by simp [groupItems]
  | g :: rest, startId, h => by
    have hg : ¬ g.serviceCode = "VAT_7" := h g (by simp)
    have ih := groupItems_filter_counted cat iid rest (startId + 1)
      (fun x hx => h x (by simp [hx]))
    simp [groupItems, isCountedItem, hg, ih]

/-! ### Claim C10: the billing month window -/

/-- Claim C10: for every valid month string `YYYY-MM` (parsed by the handler to
year `y` and month `m`), the billing window used to select events is the
half-open interval from `YYYY-MM-01` (inclusive) to the first day of the
following month (exclusive), and for month 12 the upper bound rolls over to
January 1 of year `y + 1`. -/
theorem c10_month_window (s : String) (y m : Nat)
    (hparse : (jsSplitDash s).map jsNumberNat = [y, m])
    (_hm : 1 ≤ m ∧ m ≤ 12) :
    monthRange s =
      (s ++ "-01",
        if m = 12 then toString (y + 1) ++ "-01-01"
        else toString y ++ "-" ++ jsPadStart 2 '0' (toString (m + 1)) ++ "-01") ∧
    ∀ d : String,
      inGenerateWindow s d =
        (dateLe (s ++ "-01") d &&
          dateLt d
            (if m = 12 then toString (y + 1) ++ "-01-01"
             else toString y ++ "-" ++ jsPadStart 2 '0' (toString (m + 1)) ++ "-01")) := by
  have h : monthRange s =
      (s ++ "-01",
        if m = 12 then toString (y + 1) ++ "-01-01"
        else toString y ++ "-" ++ jsPadStart 2 '0' (toString (m + 1)) ++ "-01") := by
    simp only [monthRange, hparse]
    rfl
  refine ⟨h, fun d => ?_⟩
  simp [inGenerateWindow, h]

/-- Concrete instance of C10 (December rollover). -/
theorem c10_month_window_witness :
    (jsSplitDash "2026-12").map jsNumberNat = [2026, 12] ∧
    monthRange "2026-12" = ("2026-12-01", "2027-01-01") := by
  have h := c10_month_window "2026-12" 2026 12 (by decide) (by decide)
  refine ⟨by decide, ?_⟩
  rw [h.1]
  decide

/-! ### Claim C2: idempotent no-op when a draft exists -/

/-- Claim C2: if a draft invoice already exists for (client, month) and
regeneration is not requested, generate returns that invoice's id and leaves
the state untouched, and calling generate again returns the same id both
times. -/
theorem c2_generate_idempotent_noop (st : Db) (p : GenPayload) (ex : Invoice)
    (hex : latestInvoiceFor st p.clientId p.invoiceMonth = some ex)
    (hdraft : jsToLower ex.status = "draft")
    (hregen : p.regenerateDraft = 0) :
    generateInvoice st p = (.ok (.reused ex.id), st) ∧
    generateInvoice (generateInvoice st p).2 p = (.ok (.reused ex.id), st) := by
  have h : generateInvoice st p = (.ok (.reused ex.id), st) := by
    simp [generateInvoice, withTransaction, generateTx, hex, hdraft, hregen]
  exact ⟨h, by rw [h]; exact h⟩

/-- Concrete instance of C2. -/
theorem c2_generate_idempotent_noop_witness :
    latestInvoiceFor
        { invoices := [{ id := 1, clientId := 7, invoiceMonth := some "2026-01",
                         invoiceNo := "KRW-7-202601-0001", status := "draft" }] }
        7 "2026-01" =
      some { id := 1, clientId := 7, invoiceMonth := some "2026-01",
             invoiceNo := "KRW-7-202601-0001", status := "draft" } ∧
    generateInvoice
        { invoices := [{ id := 1, clientId := 7, invoiceMonth := some "2026-01",
                         invoiceNo := "KRW-7-202601-0001", status := "draft" }] }
        { clientId := 7, invoiceMonth := "2026-01", invoiceDate := "2026-01-31" } =
      (.ok (.reused 1),
        { invoices := [{ id := 1, clientId := 7, invoiceMonth := some "2026-01",
                         invoiceNo := "KRW-7-202601-0001", status := "draft" }] }) := by
  refine ⟨by decide, ?_⟩
  exact (c2_generate_idempotent_noop
    { invoices := [{ id := 1, clientId := 7, invoiceMonth := some "2026-01",
                     invoiceNo := "KRW-7-202601-0001", status := "draft" }] }
    { clientId := 7, invoiceMonth := "2026-01", invoiceDate := "2026-01-31" }
    { id := 1, clientId := 7, invoiceMonth := some "2026-01",
      invoiceNo := "KRW-7-202601-0001", status := "draft" }
    (by decide) (by decide) rfl).1

/-! ### Claim C3: failed generation rolls everything back -/

/-- Claim C3: a generation call that fails at any step leaves the database
exactly as it was (all prior writes of the transaction — the fx `locked = 1`
update and any regeneration release/tombstoning — are rolled back); in
particular, with no PENDING events in the month the call fails with
`NO_PENDING_EVENTS` and no invoice row is created. -/
theorem c3_generate_failure_rollback (st : Db) (p : GenPayload) :
    (∀ e : String,
      (generateInvoice st p).1 = .error e → (generateInvoice st p).2 = st) ∧
    (∀ r : ExchangeRate,
      latestInvoiceFor st p.clientId p.invoiceMonth = none →
      fxLookup st p.invoiceDate = some r →
      pendingEventsFor st p.clientId p.invoiceMonth = [] →
      generateInvoice st p = (.error "NO_PENDING_EVENTS", st)) := by
  constructor
  · intro e h
    simp only [generateInvoice, withTransaction] at h ⊢
    cases htx : generateTx st p with
    | ok v =>
      obtain ⟨a, st'⟩ := v
      simp [htx] at h
    | error e' => simp [htx]
  · intro r h1 h2 h3
    have h3' : pendingEventsFor (lockRate st r.id) p.clientId p.invoiceMonth = [] := h3
    simp [generateInvoice, withTransaction, generateTx, generateFresh, h1, h2, h3']

/-- Concrete instance of C3: one unlocked fx rate, no billing events — the
generation fails with `NO_PENDING_EVENTS` and the rate is still unlocked
afterwards (the `locked = 1` write was rolled back). -/
theorem c3_generate_failure_rollback_witness :
    fxLookup { exchangeRates := [{ id := 1, rateDate := "2026-01-15", rate := 40 }] }
        "2026-01-31" =
      some { id := 1, rateDate := "2026-01-15", rate := 40 } ∧
    generateInvoice
        { exchangeRates := [{ id := 1, rateDate := "2026-01-15", rate := 40 }] }
        { clientId := 7, invoiceMonth := "2026-01", invoiceDate := "2026-01-31" } =
      (.error "NO_PENDING_EVENTS",
        { exchangeRates := [{ id := 1, rateDate := "2026-01-15", rate := 40 }] }) := by
  refine ⟨by decide, ?_⟩
  exact (c3_generate_failure_rollback _ _).2
    { id := 1, rateDate := "2026-01-15", rate := 40 } (by decide) (by decide) (by decide)

/-! ### Claim C1: totals invariant of generated invoices -/

theorem draftInvoiceRow_id (p : GenPayload) (i : Nat) (no : String) (fx : ℚ) :
    (draftInvoiceRow p i no fx).id = i := rfl

/-- Claim C1: every successfully generated invoice satisfies
`sum(invoice_item.amount) + vat = invoice.total` over its service lines, and
subtotal, VAT and total are exact multiples of 100 — the `trunc100` rule
applied at event normalisation, per-line aggregation and subtotal/VAT/total
guarantees it. -/
theorem c1_invoice_totals_invariant (st : Db) (p : GenPayload) (r : ExchangeRate)
    (evs : List BillingEvent)
    (hWF : ∀ it ∈ st.invoiceItems, it.invoiceId ≠ st.nextInvoiceId)
    (h1 : latestInvoiceFor st p.clientId p.invoiceMonth = none)
    (h2 : fxLookup st p.invoiceDate = some r)
    (h3 : pendingEventsFor st p.clientId p.invoiceMonth = evs)
    (hne : evs ≠ [])
    (hcode : ∀ e ∈ evs, e.serviceCode ≠ "VAT_7") :
    ∃ inv : Invoice,
      (generateInvoice st p).1 = .ok (.created inv evs.length r.id) ∧
      inv ∈ (generateInvoice st p).2.invoices ∧
      ((nonVatItemsOf (generateInvoice st p).2 inv.id).map fun it => it.amountKrw).sum
          + inv.vatKrw = inv.totalKrw ∧
      (∃ k : ℤ, inv.subtotalKrw = ((100 * k : ℤ) : ℚ)) ∧
      (∃ k : ℤ, inv.vatKrw = ((100 * k : ℤ) : ℚ)) ∧
      (∃ k : ℤ, inv.totalKrw = ((100 * k : ℤ) : ℚ)) := by
  obtain ⟨e0, es0, rfl⟩ : ∃ e0 es0, evs = e0 :: es0 := by
    cases evs with
    | nil => exact absurd rfl hne
    | cons a b => exact ⟨a, b, rfl⟩
  rcases hcore : generateCore (lockRate st r.id) p r (e0 :: es0) with ⟨g, st'⟩
  have hgen : generateInvoice st p = (.ok g, st') := by
    have h3' : pendingEventsFor (lockRate st r.id) p.clientId p.invoiceMonth = e0 :: es0 := h3
    simp [generateInvoice, withTransaction, generateTx, h1, generateFresh, h2, h3', hcore]
  obtain ⟨n, seqs0, nid0, hrs⟩ :=
    resolveInvoiceSequence_shape (lockRate st r.id) p.clientId (jsRemoveFirstDash p.invoiceMonth)
  simp only [generateCore, hrs, lockRate_nextInvoiceId, lockRate_invoices,
    lockRate_invoiceItems, lockRate_serviceCatalog, lockRate_nextInvoiceItemId] at hcore
  rw [Prod.mk.injEq] at hcore
  obtain ⟨hg, hst⟩ := hcore
  refine ⟨{ draftInvoiceRow p st.nextInvoiceId
      (mkInvoiceNo "KRW" p.clientId (jsRemoveFirstDash p.invoiceMonth) n) r.rate with
        subtotalKrw := ((invoiceSubtotal r.rate (e0 :: es0) : ℤ) : ℚ),
        vatKrw := ((invoiceVat r.rate (e0 :: es0) : ℤ) : ℚ),
        totalKrw := ((invoiceTotal r.rate (e0 :: es0) : ℤ) : ℚ),
        totalAmount := ((invoiceTotal r.rate (e0 :: es0) : ℤ) : ℚ) },
    ?_, ?_, ?_, ?_, ?_, ?_⟩
  · rw [hgen]
    dsimp only
    rw [← hg]
  · rw [hgen]
    dsimp only
    rw [← hst]
    dsimp only
    rw [insertGroupItems_invoices, foldl_markEventInvoiced_invoices]
    dsimp only
    refine List.mem_map.mpr ⟨draftInvoiceRow p st.nextInvoiceId
      (mkInvoiceNo "KRW" p.clientId (jsRemoveFirstDash p.invoiceMonth) n) r.rate, by simp, ?_⟩
    simp [draftInvoiceRow]
  · rw [hgen]
    dsimp only
    rw [← hst]
    dsimp only [nonVatItemsOf]
    rw [insertGroupItems_invoiceItems, insertGroupItems_nextInvoiceItemId,
      foldl_markEventInvoiced_invoiceItems, foldl_markEventInvoiced_serviceCatalog,
      foldl_markEventInvoiced_nextInvoiceItemId]
    dsimp only [draftInvoiceRow_id]
    rw [List.filter_append, List.filter_append]
    have hold : st.invoiceItems.filter (isCountedItem st.nextInvoiceId) = [] := by
      rw [List.filter_eq_nil_iff]
      intro it hit
      simp [isCountedItem, hWF it hit]
    have hcodes : ∀ g ∈ eventGroups r.rate (e0 :: es0), ¬ g.serviceCode = "VAT_7" := by
      intro g hgmem
      obtain ⟨e, he, hc⟩ := eventGroups_code r.rate (e0 :: es0) g hgmem
      rw [hc]
      exact hcode e he
    have hgrp := groupItems_filter_counted st.serviceCatalog st.nextInvoiceId
      (eventGroups r.rate (e0 :: es0)) st.nextInvoiceItemId hcodes
    have hvat : List.filter (isCountedItem st.nextInvoiceId)
        [vatItemRow (st.nextInvoiceItemId + (eventGroups r.rate (e0 :: es0)).length)
          st.nextInvoiceId (invoiceVat r.rate (e0 :: es0))] = [] := by
      simp [isCountedItem, vatItemRow]
    rw [hold, hgrp, hvat]
    rw [List.nil_append, List.append_nil]
    rw [groupItems_amount_sum]
    rw [← invoiceSubtotal_eq_sum]
    rw [invoiceTotal_eq_subtotal_add_vat]
    push_cast
    ring
  · have hd : (100:ℤ) ∣ invoiceSubtotal r.rate (e0 :: es0) := by
      unfold invoiceSubtotal; exact dvd_trunc100 _
    obtain ⟨k, hk⟩ := hd
    exact ⟨k, by rw [hk]⟩
  · have hd : (100:ℤ) ∣ invoiceVat r.rate (e0 :: es0) := by
      unfold invoiceVat; exact dvd_trunc100 _
    obtain ⟨k, hk⟩ := hd
    exact ⟨k, by rw [hk]⟩
  · have hd : (100:ℤ) ∣ invoiceTotal r.rate (e0 :: es0) := by
      unfold invoiceTotal; exact dvd_trunc100 _
    obtain ⟨k, hk⟩ := hd
    exact ⟨k, by rw [hk]⟩

/-- Concrete instance of C1. -/
theorem c1_invoice_totals_invariant_witness :
    pendingEventsFor c1Db 7 "2026-01" = [c1Event] ∧
    ∃ inv : Invoice,
      (generateInvoice c1Db c1P).1 = .ok (.created inv [c1Event].length c1Rate.id) ∧
      inv ∈ (generateInvoice c1Db c1P).2.invoices ∧
      ((nonVatItemsOf (generateInvoice c1Db c1P).2 inv.id).map fun it => it.amountKrw).sum
          + inv.vatKrw = inv.totalKrw ∧
      (∃ k : ℤ, inv.subtotalKrw = ((100 * k : ℤ) : ℚ)) ∧
      (∃ k : ℤ, inv.vatKrw = ((100 * k : ℤ) : ℚ)) ∧
      (∃ k : ℤ, inv.totalKrw = ((100 * k : ℤ) : ℚ)) := by
  refine ⟨by decide, ?_⟩
  exact c1_invoice_totals_invariant c1Db c1P c1Rate [c1Event]
    (by decide) (by decide) (by decide) (by decide) (by decide) (by decide)

/-- `find?` is stable under a map that does not change the predicate. -/
theorem find?_map_of_pred_invariant {α : Type} (f : α → α) (p : α → Bool)
    (l : List α) (hf : ∀ x, p (f x) = p x) :
    (l.map f).find? p = (l.find? p).map f := by
  induction l with
  | nil => rfl
  | cons x xs ih =>
    simp only [List.map_cons, List.find?, hf x]
    cases hx : p x
    · simpa using ih
    · rfl

/-- After one allocation, the counter row for the key exists and stores the
allocated value. -/
theorem findSequenceRow_after_resolve (st : Db) (c : Nat) (y : String) :
    ∃ r, findSequenceRow (resolveInvoiceSequence st c y).2 c y = some r ∧
      r.lastSeq = (resolveInvoiceSequence st c y).1 := by
  cases h : findSequenceRow st c y with
  | none =>
    have h' : st.invoiceSequences.find?
        (fun r => r.clientId = c && r.yyyymm = y && !r.deleted) = none := h
    refine ⟨⟨st.nextSequenceRowId, c, y, 1, false⟩, ?_, ?_⟩
    · simp only [resolveInvoiceSequence, findSequenceRow, h']
      rw [List.find?_append, h']
      simp
    · simp only [resolveInvoiceSequence, findSequenceRow, h']
  | some row =>
    have h' : st.invoiceSequences.find?
        (fun r => r.clientId = c && r.yyyymm = y && !r.deleted) = some row := h
    refine ⟨{ row with lastSeq := row.lastSeq + 1 }, ?_, ?_⟩
    · simp only [resolveInvoiceSequence, findSequenceRow, h']
      rw [find?_map_of_pred_invariant _ _ _ ?hpred]
      case hpred =>
        intro x
        by_cases hx : x.id = row.id <;> simp [hx]
      rw [h']
      simp
    · simp only [resolveInvoiceSequence, findSequenceRow, h']

/-- An allocation that finds the counter row returns its value plus one. -/
theorem resolveInvoiceSequence_fst_of_found (s : Db) (c : Nat) (y : String)
    (row : InvoiceSequence) (h : findSequenceRow s c y = some row) :
    (resolveInvoiceSequence s c y).1 = row.lastSeq + 1 := by
  simp [resolveInvoiceSequence, h]

/-- Successive allocations for the same (client, yyyymm) increase by one. -/
theorem resolveInvoiceSequence_monotone (st : Db) (c : Nat) (y : String) :
    (resolveInvoiceSequence (resolveInvoiceSequence st c y).2 c y).1 =
      (resolveInvoiceSequence st c y).1 + 1 := by
  obtain ⟨r, hfind, hseq⟩ := findSequenceRow_after_resolve st c y
  rw [resolveInvoiceSequence_fst_of_found _ _ _ _ hfind, hseq]

/-- Claim C4 counterexample: the settlement-batch issue path numbers its invoice
`INV-7-202601-0001` while the invoice's currency is `KRW`, so the number is
not of the claimed form `{CURRENCY}-{clientId}-{yyyymm}-{seq4}`. -/
theorem c4_invoice_number_counterexample :
    (issueInvoiceFromBatch c4Db c4Payload).1 =
      .ok (.created (issuedInvoiceRow c4Batch c4Payload 1 "INV-7-202601-0001") 0) ∧
    (issuedInvoiceRow c4Batch c4Payload 1 "INV-7-202601-0001").currency = "KRW" ∧
    (issuedInvoiceRow c4Batch c4Payload 1 "INV-7-202601-0001").invoiceNo ≠
      mkInvoiceNo "KRW" 7 "202601" 1 := by
  refine ⟨by decide, by decide, by decide⟩

/-- Claim C4, amended: both billing paths build numbers of the form
`{prefix}-{clientId}-{yyyymm}-{seq4}` with the sequence allocated from the
shared (client, yyyymm) counter, which increases by one on every allocation;
the Invoice Generator path uses the prefix `KRW` (its fixed currency) while
the settlement-batch issue path uses the literal prefix `INV` (not the
currency). -/
theorem c4_invoice_number_format :
    (∀ (st : Db) (c : Nat) (y : String),
      (resolveInvoiceSequence (resolveInvoiceSequence st c y).2 c y).1 =
        (resolveInvoiceSequence st c y).1 + 1) ∧
    (∀ (st : Db) (p : GenPayload) (r : ExchangeRate) (e0 : BillingEvent)
        (es0 : List BillingEvent),
      latestInvoiceFor st p.clientId p.invoiceMonth = none →
      fxLookup st p.invoiceDate = some r →
      pendingEventsFor st p.clientId p.invoiceMonth = e0 :: es0 →
      ∃ (inv : Invoice) (seqn : Nat),
        (generateInvoice st p).1 = .ok (.created inv (e0 :: es0).length r.id) ∧
        inv.invoiceNo =
          mkInvoiceNo "KRW" p.clientId (jsRemoveFirstDash p.invoiceMonth) seqn) ∧
    (∀ (st : Db) (q : IssuePayload) (batch : SettlementBatch),
      findBatch st q.settlementBatchId = some batch →
      invoiceForBatch st batch.id = none →
      ∃ (inv : Invoice) (cnt seqn : Nat),
        (issueInvoiceFromBatch st q).1 = .ok (.created inv cnt) ∧
        inv.invoiceNo =
          mkInvoiceNo "INV" batch.clientId
            (jsRemoveFirstDash batch.billingMonth) seqn) := by
  refine ⟨resolveInvoiceSequence_monotone, ?_, ?_⟩
  · intro st p r e0 es0 h1 h2 h3
    rcases hcore : generateCore (lockRate st r.id) p r (e0 :: es0) with ⟨g, st'⟩
    have hgen : generateInvoice st p = (.ok g, st') := by
      have h3' : pendingEventsFor (lockRate st r.id) p.clientId p.invoiceMonth =
          e0 :: es0 := h3
      simp [generateInvoice, withTransaction, generateTx, h1, generateFresh,
        h2, h3', hcore]
    obtain ⟨n, seqs0, nid0, hrs⟩ :=
      resolveInvoiceSequence_shape (lockRate st r.id) p.clientId
        (jsRemoveFirstDash p.invoiceMonth)
    simp only [generateCore, hrs, lockRate_nextInvoiceId, lockRate_invoices,
      lockRate_invoiceItems, lockRate_serviceCatalog,
      lockRate_nextInvoiceItemId] at hcore
    rw [Prod.mk.injEq] at hcore
    obtain ⟨hg, hst⟩ := hcore
    refine ⟨{ draftInvoiceRow p st.nextInvoiceId
        (mkInvoiceNo "KRW" p.clientId (jsRemoveFirstDash p.invoiceMonth) n) r.rate with
          subtotalKrw := ((invoiceSubtotal r.rate (e0 :: es0) : ℤ) : ℚ),
          vatKrw := ((invoiceVat r.rate (e0 :: es0) : ℤ) : ℚ),
          totalKrw := ((invoiceTotal r.rate (e0 :: es0) : ℤ) : ℚ),
          totalAmount := ((invoiceTotal r.rate (e0 :: es0) : ℤ) : ℚ) }, n, ?_, rfl⟩
    rw [hgen]
    dsimp only
    rw [← hg]
  · intro st q batch hb hn
    refine ⟨issuedInvoiceRow batch q
        (resolveInvoiceSequence st batch.clientId
          (jsRemoveFirstDash batch.billingMonth)).2.nextInvoiceId
        (mkInvoiceNo "INV" batch.clientId (jsRemoveFirstDash batch.billingMonth)
          (resolveInvoiceSequence st batch.clientId
            (jsRemoveFirstDash batch.billingMonth)).1),
      (linesForBatch (resolveInvoiceSequence st batch.clientId
        (jsRemoveFirstDash batch.billingMonth)).2 batch.id).length,
      (resolveInvoiceSequence st batch.clientId
        (jsRemoveFirstDash batch.billingMonth)).1, ?_, rfl⟩
    simp [issueInvoiceFromBatch, withTransaction, issueInvoiceTx, hb, hn]

/-- Concrete instance of the amended C4 (settlement path). -/
theorem c4_invoice_number_format_witness :
    findBatch c4Db c4Payload.settlementBatchId = some c4Batch ∧
    ∃ (inv : Invoice) (cnt seqn : Nat),
      (issueInvoiceFromBatch c4Db c4Payload).1 = .ok (.created inv cnt) ∧
      inv.invoiceNo =
        mkInvoiceNo "INV" c4Batch.clientId
          (jsRemoveFirstDash c4Batch.billingMonth) seqn := by
  refine ⟨by decide, ?_⟩
  exact c4_invoice_number_format.2.2 c4Db c4Payload c4Batch (by decide) (by decide)

/-- Under the invariant that month-less (settlement) invoices store no fx
rate, the usage count is positive exactly when some live invoice references
the rate value. -/
theorem exchangeRateUsage_pos_iff (st : Db) (rate : ℚ)
    (hinv : ∀ i ∈ st.invoices, i.invoiceMonth = none → i.fxRateThbkrw = none) :
    0 < exchangeRateUsageCount st rate ↔
      ∃ i ∈ st.invoices, i.deleted = false ∧ i.fxRateThbkrw = some rate := by
  unfold exchangeRateUsageCount
  rw [List.length_pos_iff_exists_mem]
  constructor
  · rintro ⟨i, hi⟩
    rw [List.mem_filter] at hi
    obtain ⟨him, hpred⟩ := hi
    simp only [Bool.and_eq_true, Bool.not_eq_true', decide_eq_true_eq] at hpred
    exact ⟨i, him, hpred.1.1, hpred.2⟩
  · rintro ⟨i, him, hdel, hfx⟩
    refine ⟨i, List.mem_filter.mpr ⟨him, ?_⟩⟩
    have hm : ¬ i.invoiceMonth = none := by
      intro hm0
      have hnone := hinv i him hm0
      rw [hnone] at hfx
      exact Option.noConfusion hfx
    simp [hdel, hm, hfx]

/-- Claim C5: an update or delete of an exchange rate is rejected with the
LOCKED error exactly when `locked = 1` or some non-deleted invoice references
that exact rate value for the THB/KRW pair; when neither holds, the mutation
proceeds. (The invariant hypothesis records that settlement invoices, the
only ones without an invoice month, never store an fx rate.) -/
theorem c5_exchange_rate_locked (st : Db) (rid : Nat) (payload : RatePayload)
    (row : ExchangeRate)
    (hrow : findExchangeRate st rid = some row)
    (hinv : ∀ i ∈ st.invoices, i.invoiceMonth = none → i.fxRateThbkrw = none) :
    ((updateExchangeRate st rid payload).1 = .error "EXCHANGE_RATE_LOCKED" ↔
      (row.locked = 1 ∨
        ∃ i ∈ st.invoices, i.deleted = false ∧ i.fxRateThbkrw = some row.rate)) ∧
    ((deleteExchangeRate st rid).1 = .error "EXCHANGE_RATE_LOCKED" ↔
      (row.locked = 1 ∨
        ∃ i ∈ st.invoices, i.deleted = false ∧ i.fxRateThbkrw = some row.rate)) ∧
    (¬(row.locked = 1 ∨
        ∃ i ∈ st.invoices, i.deleted = false ∧ i.fxRateThbkrw = some row.rate) →
      (updateExchangeRate st rid payload).1 = .ok () ∧
      (deleteExchangeRate st rid).1 = .ok ()) := by
  have hcondIff : (row.locked = 1 ∨ 0 < exchangeRateUsageCount st row.rate) ↔
      (row.locked = 1 ∨
        ∃ i ∈ st.invoices, i.deleted = false ∧ i.fxRateThbkrw = some row.rate) :=
    or_congr_right (exchangeRateUsage_pos_iff st row.rate hinv)
  have hup : (updateExchangeRate st rid payload).1 =
      if row.locked = 1 ∨ 0 < exchangeRateUsageCount st row.rate then
        .error "EXCHANGE_RATE_LOCKED" else .ok () := by
    simp only [updateExchangeRate, hrow]
    by_cases hc : row.locked = 1 ∨ 0 < exchangeRateUsageCount st row.rate <;>
      simp [hc]
  have hdel : (deleteExchangeRate st rid).1 =
      if row.locked = 1 ∨ 0 < exchangeRateUsageCount st row.rate then
        .error "EXCHANGE_RATE_LOCKED" else .ok () := by
    simp only [deleteExchangeRate, hrow]
    by_cases hc : row.locked = 1 ∨ 0 < exchangeRateUsageCount st row.rate <;>
      simp [hc]
  refine ⟨?_, ?_, ?_⟩
  · rw [hup]
    by_cases hc : row.locked = 1 ∨ 0 < exchangeRateUsageCount st row.rate
    · rw [if_pos hc]
      exact iff_of_true rfl (hcondIff.mp hc)
    · rw [if_neg hc]
      exact iff_of_false (by simp) fun hR => hc (hcondIff.mpr hR)
  · rw [hdel]
    by_cases hc : row.locked = 1 ∨ 0 < exchangeRateUsageCount st row.rate
    · rw [if_pos hc]
      exact iff_of_true rfl (hcondIff.mp hc)
    · rw [if_neg hc]
      exact iff_of_false (by simp) fun hR => hc (hcondIff.mpr hR)
  · intro hnot
    have hc : ¬(row.locked = 1 ∨ 0 < exchangeRateUsageCount st row.rate) :=
      fun h => hnot (hcondIff.mp h)
    rw [hup, hdel, if_neg hc]
    exact ⟨rfl, rfl⟩

/-- Concrete instance of C5: the unlocked-but-used rate is rejected. -/
theorem c5_exchange_rate_locked_witness :
    findExchangeRate c5Db 1 = some c5Rate ∧
    ((updateExchangeRate c5Db 1
        { rateDate := "2026-01-06", rate := 41 }).1 =
          .error "EXCHANGE_RATE_LOCKED" ↔
      (c5Rate.locked = 1 ∨
        ∃ i ∈ c5Db.invoices, i.deleted = false ∧
          i.fxRateThbkrw = some c5Rate.rate)) := by
  refine ⟨by decide, ?_⟩
  exact (c5_exchange_rate_locked c5Db 1 { rateDate := "2026-01-06", rate := 41 }
    c5Rate (by decide) (by decide)).1

/-- Claim C8: closing an already-closed batch fails with `ALREADY_CLOSED` and
changes nothing; a reopen request against a batch that already has an
outstanding `requested` request fails with `REQUEST_EXISTS` and changes
nothing; and the reopen-request operation preserves "at most one outstanding
`requested` request per batch". -/
theorem c8_settlement_lifecycle (st : Db) (batchId : Nat) :
    (∀ (b : SettlementBatch) (p : CloseBatchPayload),
      findBatch st batchId = some b → b.status = "closed" →
      closeBatchTx st batchId p = (.error "ALREADY_CLOSED", st)) ∧
    (∀ (b : SettlementBatch) (p : ReopenRequestPayload) (rq : ReopenRequest),
      findBatch st batchId = some b → b.status = "closed" →
      pendingReopenRequestFor st batchId = some rq →
      createReopenRequestTx st batchId p = (.error "REQUEST_EXISTS", st)) ∧
    (∀ (p : ReopenRequestPayload) (b' : Nat),
      requestedCount st b' ≤ 1 →
      requestedCount (createReopenRequestTx st batchId p).2 b' ≤ 1) := by
  refine ⟨?_, ?_, ?_⟩
  · intro b p hb hclosed
    simp [closeBatchTx, hb, hclosed]
  · intro b p rq hb hclosed hpend
    simp [createReopenRequestTx, hb, hclosed, hpend]
  · intro p b' hle
    cases hb : findBatch st batchId with
    | none => simpa [createReopenRequestTx, hb] using hle
    | some b =>
      by_cases hclosed : b.status = "closed"
      · cases hpend : pendingReopenRequestFor st batchId with
        | some rq =>
          simpa [createReopenRequestTx, hb, hclosed, hpend] using hle
        | none =>
          have hstate : (createReopenRequestTx st batchId p).2 =
              { st with
                reopenRequests := st.reopenRequests ++
                  [⟨st.nextReopenRequestId, batchId, p.requestedBy, p.reason,
                    "requested", none, none, false⟩],
                nextReopenRequestId := st.nextReopenRequestId + 1 } := by
            simp [createReopenRequestTx, hb, hclosed, hpend]
          rw [hstate]
          have hzero : requestedCount st batchId = 0 := by
            unfold requestedCount
            rw [List.length_eq_zero, List.filter_eq_nil_iff]
            intro rq hrq
            have hn := List.find?_eq_none.mp hpend rq hrq
            simpa using hn
          unfold requestedCount at hle hzero ⊢
          dsimp only
          rw [List.filter_append, List.length_append]
          by_cases hbb : b' = batchId
          · subst hbb
            rw [hzero]
            simp
          · have hno : ((([⟨st.nextReopenRequestId, batchId, p.requestedBy,
                p.reason, "requested", none, none, false⟩] : List ReopenRequest)).filter
                  fun rq => rq.settlementBatchId = b' &&
                    rq.status = "requested" && !rq.deleted) = [] := by
              simp [show ¬ batchId = b' from fun h => hbb h.symm]
            rw [hno]
            simpa using hle
      · simpa [createReopenRequestTx, hb, hclosed] using hle

/-- Concrete instance of C8. -/
theorem c8_settlement_lifecycle_witness :
    findBatch c8Db 1 = some c8Batch ∧ c8Batch.status = "closed" ∧
    closeBatchTx c8Db 1 { closedBy := 2 } = (.error "ALREADY_CLOSED", c8Db) ∧
    createReopenRequestTx c8Db 1 { requestedBy := 3, reason := "again" } =
      (.error "REQUEST_EXISTS", c8Db) := by
  refine ⟨by decide, by decide, ?_, ?_⟩
  · exact (c8_settlement_lifecycle c8Db 1).1 c8Batch { closedBy := 2 }
      (by decide) (by decide)
  · exact (c8_settlement_lifecycle c8Db 1).2.1 c8Batch
      { requestedBy := 3, reason := "again" } c8Request
      (by decide) (by decide) (by decide)

/-- Claim C9: if any referenced event is linked to a live issued/paid invoice,
the whole request fails with EVENTS_LOCKED and no event is modified; when the
request succeeds, the referenced live events are set to PENDING with their
invoice link and fx rate cleared, and an event linked to a live issued/paid
invoice is never reverted (its row function is the identity). -/
theorem c9_mark_pending (st : Db) (ids : List Nat) :
    (∀ e ∈ st.billingEvents,
      e.id ∈ ids → e.deleted = false → eventInvoiceLocked st e = true →
      markPendingTx st ids = (.error "EVENTS_LOCKED", st)) ∧
    (∀ n, (markPendingTx st ids).1 = .ok n →
      ((markPendingTx st ids).2.billingEvents =
          st.billingEvents.map (resetPendingRow ids) ∧
        ∀ e ∈ st.billingEvents, eventInvoiceLocked st e = true →
          resetPendingRow ids e = e)) := by
  constructor
  · intro e he hid hdel hlock
    have herow : e ∈ st.billingEvents.filter fun x => x.id ∈ ids && !x.deleted :=
      List.mem_filter.mpr ⟨he, by simp [hid, hdel]⟩
    have hblocked : e ∈ (st.billingEvents.filter
        fun x => x.id ∈ ids && !x.deleted).filter
          fun x => eventInvoiceLocked st x :=
      List.mem_filter.mpr ⟨herow, by simp [hlock]⟩
    have h1 : (st.billingEvents.filter
        fun x => x.id ∈ ids && !x.deleted).isEmpty = false := by
      cases hh : (st.billingEvents.filter
          fun x => x.id ∈ ids && !x.deleted).isEmpty
      · rfl
      · rw [List.isEmpty_iff.mp hh] at herow
        exact absurd herow (List.not_mem_nil e)
    have h2 : ((st.billingEvents.filter
        fun x => x.id ∈ ids && !x.deleted).filter
          fun x => eventInvoiceLocked st x).isEmpty = false := by
      cases hh : ((st.billingEvents.filter
          fun x => x.id ∈ ids && !x.deleted).filter
            fun x => eventInvoiceLocked st x).isEmpty
      · rfl
      · rw [List.isEmpty_iff.mp hh] at hblocked
        exact absurd hblocked (List.not_mem_nil e)
    unfold markPendingTx
    simp only [h1, h2]
    simp
  · intro n hok
    by_cases h1 : (st.billingEvents.filter
        fun x => x.id ∈ ids && !x.deleted).isEmpty = true
    · exfalso
      unfold markPendingTx at hok
      simp only [h1] at hok
      simp at hok
    · have h1' : (st.billingEvents.filter
          fun x => x.id ∈ ids && !x.deleted).isEmpty = false := by
        revert h1
        cases (st.billingEvents.filter
          fun x => x.id ∈ ids && !x.deleted).isEmpty <;> simp
      by_cases h2 : ((st.billingEvents.filter
          fun x => x.id ∈ ids && !x.deleted).filter
            fun x => eventInvoiceLocked st x).isEmpty = true
      · constructor
        · unfold markPendingTx
          simp only [h1', h2]
          simp
        · intro e he hlock
          have hnil := List.isEmpty_iff.mp h2
          by_cases hcond : (e.id ∈ ids ∧ e.deleted = false)
          · exfalso
            have hmem : e ∈ (st.billingEvents.filter
                fun x => x.id ∈ ids && !x.deleted).filter
                  fun x => eventInvoiceLocked st x :=
              List.mem_filter.mpr
                ⟨List.mem_filter.mpr ⟨he, by simp [hcond.1, hcond.2]⟩,
                  by simp [hlock]⟩
            rw [hnil] at hmem
            exact absurd hmem (List.not_mem_nil e)
          · unfold resetPendingRow
            rw [if_neg]
            simp only [Bool.and_eq_true, Bool.not_eq_true', decide_eq_true_eq]
            intro hand
            exact hcond ⟨hand.1, hand.2⟩
      · exfalso
        have h2' : ((st.billingEvents.filter
            fun x => x.id ∈ ids && !x.deleted).filter
              fun x => eventInvoiceLocked st x).isEmpty = false := by
          revert h2
          cases ((st.billingEvents.filter
            fun x => x.id ∈ ids && !x.deleted).filter
              fun x => eventInvoiceLocked st x).isEmpty <;> simp
        unfold markPendingTx at hok
        simp only [h1', h2'] at hok
        simp at hok

/-- Concrete instance of C9: marking the locked event pending fails and
leaves the state unchanged. -/
theorem c9_mark_pending_witness :
    eventInvoiceLocked c9Db c9Event = true ∧
    markPendingTx c9Db [1] = (.error "EVENTS_LOCKED", c9Db) := by
  refine ⟨by decide, ?_⟩
  exact (c9_mark_pending c9Db [1]).1 c9Event (by decide) (by decide)
    (by decide) (by decide)

/-- Claim C6 counterexample: a generate request with no `created_by` passes
validation and proceeds with the fallback actor id 1 instead of being
rejected. -/
theorem c6_missing_actor_counterexample :
    validateOptionalCreator none = true ∧ parseCreator none none = 1 := by
  constructor <;> decide

/-- Claim C6, amended: the settlement-batch routes require an actor id and
reject a missing or non-positive one, but the billing-engine routes do not:
`generate` treats `created_by` as optional and falls back to the
authenticated user id or the literal 1 (and `issue`/`mark-paid` take no actor
at all). -/
theorem c6_actor_requirements :
    validateRequiredActor none = false ∧
    validateRequiredActor (some 0) = false ∧
    validateRequiredActor (some 5) = true ∧
    validateOptionalCreator none = true ∧
    parseCreator none none = 1 ∧
    parseCreator (some 42) none = 42 ∧
    parseCreator (some 42) (some 7) = 7 := by
  refine ⟨?_, ?_, ?_, ?_, ?_, ?_, ?_⟩ <;> decide

theorem polLe_refl (a : PricePolicy) : polLe a a := Or.inr ⟨rfl, le_refl _⟩

theorem polLe_trans {a b c : PricePolicy} (h1 : polLe a b) (h2 : polLe b c) :
    polLe a c := by
  rcases h1 with h1 | ⟨he1, hi1⟩ <;> rcases h2 with h2 | ⟨he2, hi2⟩
  · exact Or.inl (h1.trans h2)
  · exact Or.inl (he2 ▸ h1)
  · exact Or.inl (he1 ▸ h2)
  · exact Or.inr ⟨he1.trans he2, hi1.trans hi2⟩

theorem pickBetterPolicy_fold_spec :
    ∀ (l : List PricePolicy) (b r : PricePolicy),
      l.foldl pickBetterPolicy (some b) = some r →
      (r = b ∨ r ∈ l) ∧ polLe b r ∧ ∀ q ∈ l, polLe q r := by
  intro l
  induction l with
  | nil =>
    intro b r h
    cases Option.some.inj h
    exact ⟨Or.inl rfl, polLe_refl _, by simp⟩
  | cons x xs ih =>
    intro b r h
    rw [List.foldl_cons] at h
    by_cases hc : b.effectiveFrom < x.effectiveFrom ∨
        (b.effectiveFrom = x.effectiveFrom ∧ b.id < x.id)
    · rw [show pickBetterPolicy (some b) x = some x from by
        simp [pickBetterPolicy, hc]] at h
      obtain ⟨hmem, hle, hall⟩ := ih x r h
      have hbx : polLe b x := by
        rcases hc with hc | ⟨hce, hci⟩
        · exact Or.inl hc
        · exact Or.inr ⟨hce, le_of_lt hci⟩
      refine ⟨?_, polLe_trans hbx hle, ?_⟩
      · rcases hmem with rfl | hm
        · exact Or.inr (List.mem_cons_self _ _)
        · exact Or.inr (List.mem_cons_of_mem _ hm)
      · intro q hq
        rcases List.mem_cons.mp hq with rfl | hqm
        · exact hle
        · exact hall q hqm
    · rw [show pickBetterPolicy (some b) x = some b from by
        simp [pickBetterPolicy, hc]] at h
      obtain ⟨hmem, hle, hall⟩ := ih b r h
      refine ⟨?_, hle, ?_⟩
      · rcases hmem with rfl | hm
        · exact Or.inl rfl
        · exact Or.inr (List.mem_cons_of_mem _ hm)
      · intro q hq
        rcases List.mem_cons.mp hq with rfl | hqm
        · have hqb : polLe q b := by
            rcases lt_trichotomy q.effectiveFrom b.effectiveFrom with h' | h' | h'
            · exact Or.inl h'
            · refine Or.inr ⟨h', ?_⟩
              by_contra hgt
              push_neg at hgt
              exact hc (Or.inr ⟨h'.symm, hgt⟩)
            · exact absurd (Or.inl h') hc
          exact polLe_trans hqb hle
        · exact hall q hqm

theorem pickLatestPolicy_spec (l : List PricePolicy) (r : PricePolicy)
    (h : pickLatestPolicy l = some r) : r ∈ l ∧ ∀ q ∈ l, polLe q r := by
  cases l with
  | nil => exact absurd h (by simp [pickLatestPolicy])
  | cons x xs =>
    have h' : xs.foldl pickBetterPolicy (some x) = some r := h
    obtain ⟨hmem, hle, hall⟩ := pickBetterPolicy_fold_spec xs x r h'
    refine ⟨?_, ?_⟩
    · rcases hmem with rfl | hm
      · exact List.mem_cons_self _ _
      · exact List.mem_cons_of_mem _ hm
    · intro q hq
      rcases List.mem_cons.mp hq with rfl | hqm
      · exact hle
      · exact hall q hqm

theorem pickLatestPolicy_isSome :
    ∀ (xs : List PricePolicy) (b : PricePolicy),
      ∃ r, xs.foldl pickBetterPolicy (some b) = some r
  | [], b => ⟨b, rfl⟩
  | x :: xs, b => by
    by_cases hc : b.effectiveFrom < x.effectiveFrom ∨
        (b.effectiveFrom = x.effectiveFrom ∧ b.id < x.id)
    · obtain ⟨r, hr⟩ := pickLatestPolicy_isSome xs x
      exact ⟨r, by
        rw [List.foldl_cons, show pickBetterPolicy (some b) x = some x from by
          simp [pickBetterPolicy, hc], hr]⟩
    · obtain ⟨r, hr⟩ := pickLatestPolicy_isSome xs b
      exact ⟨r, by
        rw [List.foldl_cons, show pickBetterPolicy (some b) x = some b from by
          simp [pickBetterPolicy, hc], hr]⟩

theorem pickLatestPolicy_none_iff (l : List PricePolicy) :
    pickLatestPolicy l = none ↔ l = [] := by
  cases l with
  | nil => simp [pickLatestPolicy]
  | cons x xs =>
    simp only [pickLatestPolicy, List.foldl_cons]
    constructor
    · intro h
      obtain ⟨r, hr⟩ := pickLatestPolicy_isSome xs x
      rw [show pickBetterPolicy none x = some x from rfl] at h
      rw [hr] at h
      exact absurd h (by simp)
    · intro h
      exact absurd h (by simp)

/-- Claim C7: price resolution returns the single active policy with the
latest effective_from ≤ date (effective_to null or ≥ date), ties broken by
highest effective_from then highest id; it returns `none` exactly when no
policy is active; and with no active policy the movement upsert produces no
service event and succeeds (returns null, state unchanged). -/
theorem c7_price_resolution (db : ApiDb) (clientId : Nat) (onDate : Int) :
    (∀ res : ResolvedPolicy,
      resolveActivePricePolicy db clientId onDate = some res →
      ∃ pp ∈ db.pricePolicies,
        policyActive clientId onDate pp = true ∧
        (catalogRowFor db pp.serviceId).isSome = true ∧
        res.id = pp.id ∧
        ∀ q ∈ db.pricePolicies,
          policyActive clientId onDate q = true →
          (catalogRowFor db q.serviceId).isSome = true →
          (q.effectiveFrom < pp.effectiveFrom ∨
            (q.effectiveFrom = pp.effectiveFrom ∧ q.id ≤ pp.id))) ∧
    (resolveActivePricePolicy db clientId onDate = none ↔
      ∀ pp ∈ db.pricePolicies,
        ¬(policyActive clientId onDate pp = true ∧
          (catalogRowFor db pp.serviceId).isSome = true)) ∧
    (∀ prm : UpsertParams,
      resolveActivePricePolicy db prm.clientId prm.orderDate = none →
      upsertOutboundServiceEvent db prm = (none, db)) := by
  refine ⟨?_, ?_, ?_⟩
  · intro res hres
    simp only [resolveActivePricePolicy] at hres
    cases hpick : pickLatestPolicy (db.pricePolicies.filter fun pp =>
        policyActive clientId onDate pp && (catalogRowFor db pp.serviceId).isSome) with
    | none => rw [hpick] at hres; simp at hres
    | some pp =>
      rw [hpick] at hres
      dsimp only at hres
      obtain ⟨hmem, hall⟩ := pickLatestPolicy_spec _ pp hpick
      rw [List.mem_filter] at hmem
      obtain ⟨hmm, hpred⟩ := hmem
      simp only [Bool.and_eq_true] at hpred
      cases hcat : catalogRowFor db pp.serviceId with
      | none => rw [hcat] at hres; simp at hres
      | some sc =>
        rw [hcat] at hres
        simp only [Option.some.injEq] at hres
        refine ⟨pp, hmm, hpred.1, hpred.2, ?_, ?_⟩
        · rw [← hres]
        · intro q hq hact hsome
          have hqc : q ∈ db.pricePolicies.filter fun x =>
              policyActive clientId onDate x && (catalogRowFor db x.serviceId).isSome :=
            List.mem_filter.mpr ⟨hq, by simp [hact, hsome]⟩
          exact hall q hqc
  · constructor
    · intro hnone pp hp hand
      simp only [resolveActivePricePolicy] at hnone
      cases hpick : pickLatestPolicy (db.pricePolicies.filter fun x =>
          policyActive clientId onDate x && (catalogRowFor db x.serviceId).isSome) with
      | some pp' =>
        rw [hpick] at hnone
        dsimp only at hnone
        obtain ⟨hmem, _⟩ := pickLatestPolicy_spec _ pp' hpick
        rw [List.mem_filter] at hmem
        obtain ⟨_, hpred⟩ := hmem
        simp only [Bool.and_eq_true] at hpred
        obtain ⟨sc, hsc⟩ := Option.isSome_iff_exists.mp hpred.2
        rw [hsc] at hnone
        exact absurd hnone (by simp)
      | none =>
        rw [pickLatestPolicy_none_iff] at hpick
        have hnp := List.filter_eq_nil_iff.mp hpick pp hp
        simp only [Bool.and_eq_true, not_and] at hnp
        exact hnp hand.1 hand.2
    · intro hforall
      have hcand : (db.pricePolicies.filter fun pp =>
          policyActive clientId onDate pp && (catalogRowFor db pp.serviceId).isSome) = [] := by
        rw [List.filter_eq_nil_iff]
        intro pp hp
        have := hforall pp hp
        simp only [Bool.and_eq_true, not_and] at this ⊢
        intro h1 h2
        exact this h1 h2
      simp only [resolveActivePricePolicy]
      rw [hcand]
      rfl
  · intro prm hnone
    unfold upsertOutboundServiceEvent
    rw [hnone]

/-- Concrete instance of C7: the single active policy is selected, and with
no active policy the upsert is a no-op returning null. -/
theorem c7_price_resolution_witness :
    resolveActivePricePolicy c7Db 7 150 = some ⟨1, 2, 120, "THB", "ORDER"⟩ ∧
    (∃ pp ∈ c7Db.pricePolicies,
      policyActive 7 150 pp = true ∧
      (catalogRowFor c7Db pp.serviceId).isSome = true ∧
      (⟨1, 2, 120, "THB", "ORDER"⟩ : ResolvedPolicy).id = pp.id ∧
      ∀ q ∈ c7Db.pricePolicies,
        policyActive 7 150 q = true →
        (catalogRowFor c7Db q.serviceId).isSome = true →
        (q.effectiveFrom < pp.effectiveFrom ∨
          (q.effectiveFrom = pp.effectiveFrom ∧ q.id ≤ pp.id))) ∧
    upsertOutboundServiceEvent c7EmptyDb
        { clientId := 7, outboundOrderId := 1, stockTransactionId := 1,
          orderDate := 150, qty := 2, boxCount := 0 } = (none, c7EmptyDb) := by
  refine ⟨by decide, ?_, ?_⟩
  · exact (c7_price_resolution c7Db 7 150).1 ⟨1, 2, 120, "THB", "ORDER"⟩ (by decide)
  · exact (c7_price_resolution c7EmptyDb 7 150).2.2
      { clientId := 7, outboundOrderId := 1, stockTransactionId := 1,
        orderDate := 150, qty := 2, boxCount := 0 } (by decide)

end ThreePL

